import Mathlib

/-!
# cabby2: range codec, status ledger and the objects handler

A shallow embedding of the parts of `github.com/pladdy/cabby2` that the
pagination protocol and the bulk-object ingestion pipeline rest on, with the
properties proved about them.

* Go `int64`/`int` values are `Int`; where the width matters the bound is an
  explicit predicate (`inInt64`).
* Go `string` is `String`; parsing works on the character list `String.data`.
* A Go `(value, error)` pair is a pair whose second component is an
  `Option String` holding the error text (`none` is the `nil` error).
* A handler is a function from the request to the list of effects it performs,
  in program order (`Event`); the HTTP response is read off that list.
-/

set_option linter.dupNamespace false

namespace Cabby

/-! ## Text helpers -/

/-- Split a character list at every occurrence of `sep`, as Go's `strings.Split` does for a
one-character separator: the result always has at least one part. -/
def splitSep (sep : Char) : List Char → List (List Char)
  | [] => [[]]
  | c :: cs =>
    if c = sep then [] :: splitSep sep cs
    else
      match splitSep sep cs with
      | [] => [[c]]
      | p :: ps => (c :: p) :: ps

/-- Remove the keyword `kw` from the front of `cs`; `none` when `cs` does not start with it. -/
def dropKeyword : List Char → List Char → Option (List Char)
  | [], cs => some cs
  | _ :: _, [] => none
  | k :: ks, c :: cs => if k = c then dropKeyword ks cs else none

/-- Value of a decimal digit character. -/
def digitValue (c : Char) : Nat := c.toNat - 48

/-- Largest `int64`. -/
def maxInt64 : Int := 9223372036854775807

/-- Smallest `int64`. -/
def minInt64 : Int := -9223372036854775808

/-- Representable as a Go `int64`. -/
def inInt64 (i : Int) : Prop := minInt64 ≤ i ∧ i ≤ maxInt64

instance decInInt64 (i : Int) : Decidable (inInt64 i) :=
  inferInstanceAs (Decidable (minInt64 ≤ i ∧ i ≤ maxInt64))

/-- Read a non-negative decimal integer that fits an `int64`: the token must be non-empty and
made of the digits `0`..`9` only. -/
def parseNumber (cs : List Char) : Option Int :=
  if cs = [] then none
  else if cs.all Char.isDigit then
    let n : Nat := cs.foldl (fun acc c => acc * 10 + digitValue c) 0
    if (n : Int) ≤ maxInt64 then some (n : Int) else none
  else none

/-! ## Range (package `cabby`) -/

/-- The `cabby.Range` resource: an inclusive window `[First, Last]` and the total count the
server reports on output. -/
structure Range where
  First : Int
  Last : Int
  Total : Int
  deriving DecidableEq, Repr

/-- The value `Range{First: -1, Last: -1}` returned when no window was requested. -/
def Range.sentinel : Range := { First := -1, Last := -1, Total := 0 }

/-- All three fields are `int64` values. -/
def Range.inInt64 (r : Range) : Prop :=
  Cabby.inInt64 r.First ∧ Cabby.inInt64 r.Last ∧ Cabby.inInt64 r.Total

instance decRangeInInt64 (r : Range) : Decidable r.inInt64 :=
  inferInstanceAs (Decidable (Cabby.inInt64 r.First ∧ Cabby.inInt64 r.Last ∧ Cabby.inInt64 r.Total))

/-- Modelled from the spec: `Range.Valid` lives in `cabby.go`, which is not among the sources.
Spec §4.1: `Valid(r) -> bool`: `First >= 0 AND Last >= First`. -/
def Range.Valid (r : Range) : Bool := decide (r.First ≥ 0) && decide (r.Last ≥ r.First)

/-- Modelled from the spec: `Range.String` lives in `cabby.go`, which is not among the sources.
Spec §4.1: `serialize(r) -> string`: `"items {First}-{Last}"`, with `"/{Total}"` appended iff
`Total != 0`. -/
def Range.String (r : Range) : String :=
  let s := "items " ++ toString r.First ++ "-" ++ toString r.Last
  if r.Total ≠ 0 then s ++ "/" ++ toString r.Total else s

/-- Error text of a header that does not follow the grammar. -/
def invalidRangeError : String := "Invalid range specified"

/-- Modelled from the spec: `NewRange` lives in `cabby.go`, which is not among the sources.
Spec §4.1: the grammar is the literal keyword `items`, one space, `<first>-<last>`, where
`<first>` and `<last>` are non-negative decimal integers. Empty input returns the sentinel
`{-1,-1}` and no error; a missing dash, a missing second number or a non-numeric token is a
parse error and the sentinel is returned; a well-formed numeric pair is returned verbatim
whatever its ordering. `Range` fields are `int64`, so a number that does not fit is not a
numeric token. -/
def NewRange (items : String) : Range × Option String :=
  if items = "" then (Range.sentinel, none)
  else
    match dropKeyword "items ".data items.data with
    | none => (Range.sentinel, some invalidRangeError)
    | some rest =>
      match parseNumber (rest.takeWhile (fun c => c != '-')),
            rest.dropWhile (fun c => c != '-') with
      | some first, '-' :: tl =>
        match parseNumber tl with
        | some last => ({ First := first, Last := last, Total := 0 }, none)
        | none => (Range.sentinel, some invalidRangeError)
      | _, _ => (Range.sentinel, some invalidRangeError)


/-! ## Status (package `cabby`) and the status ledger (package `sqlite`) -/

/-- The `cabby.ID` type (a UUID), kept as its text. -/
abbrev ID := String

/-- The `cabby.Status` resource. -/
structure Status where
  ID : ID
  Status : String
  TotalCount : Int
  SuccessCount : Int
  FailureCount : Int
  PendingCount : Int
  deriving DecidableEq, Repr

/-- The Go zero value `Status{}`. -/
def Status.zero : Cabby.Status :=
  { ID := "", Status := "", TotalCount := 0, SuccessCount := 0, FailureCount := 0,
    PendingCount := 0 }

/-- The invariant of spec §3 on one status record. -/
def Status.Invariant (s : Cabby.Status) : Prop :=
  s.PendingCount = s.TotalCount - s.SuccessCount - s.FailureCount ∧
    (s.Status = "complete" ↔ s.PendingCount = 0) ∧
    (s.PendingCount ≠ 0 → s.Status = "pending")

/-- Modelled from the spec: `NewStatus` lives in `cabby.go`, which is not among the sources.
Spec §3: a status is created with `TotalCount = |Bundle.Objects|` and
`SuccessCount = FailureCount = 0`, and the invariant fixes `PendingCount` and the label;
`TestNewStatusError` has `NewStatus(0)` return an error. The fresh identifier is passed in. -/
def NewStatus (objects : Int) (id : ID) : Status × Option String :=
  if objects < 1 then (Status.zero, some "Can't post less than 1 object")
  else
    ({ ID := id, Status := "pending", TotalCount := objects, SuccessCount := 0,
       FailureCount := 0, PendingCount := objects }, none)

namespace Sqlite

/-- The data store behind `sqlite.StatusService`: the rows of the `taxii_status` table, or
`none` when the table does not exist (every statement then fails, as in
`TestStatusServiceCreateStatusFail`). -/
structure DataStore where
  taxii_status : Option (List Status)
  deriving DecidableEq, Repr

/-- Modelled from the spec: `StatusService.UpdateStatus` lives in `sqlite/status.go`, which is
not among the sources. Spec §4.3: `update(statusDelta) -> ok | StoreError`: recomputes counts
by the invariant (`PendingCount = TotalCount - SuccessCount - FailureCount`, label `complete`
if `PendingCount == 0` else `pending`) and rewrites the record. -/
def StatusService.UpdateStatus (ds : DataStore) (st : Cabby.Status) :
    DataStore × Option String :=
  match ds.taxii_status with
  | none => (ds, some "no such table: taxii_status")
  | some rows =>
    let pending := st.TotalCount - st.SuccessCount - st.FailureCount
    let label := if pending = 0 then "complete" else "pending"
    let record : Cabby.Status := { st with PendingCount := pending, Status := label }
    ({ taxii_status := some (rows.map (fun row => if row.ID == st.ID then record else row)) },
      none)

end Sqlite

/-! ## Package `http`: resources, requests and effects -/

/-- The constant `cabby.TaxiiContentType` (declared in `cabby.go`; the value is the one of
`taxiiContentType` in `http/requests.go`). -/
def TaxiiContentType : String := "application/vnd.oasis.taxii+json"

/-- The constant `cabby.StixContentType` (declared in `cabby.go`; the value is the one of
`stixContentType` in `http/requests.go`). -/
def StixContentType : String := "application/vnd.oasis.stix+json"

/-- The `cabby.CollectionAccess` resource. -/
structure CollectionAccess where
  ID : ID
  CanRead : Bool
  CanWrite : Bool
  deriving DecidableEq, Repr

/-- The Go zero value `CollectionAccess{}`. -/
def CollectionAccess.zero : CollectionAccess := { ID := "", CanRead := false, CanWrite := false }

/-- The `cabby.Error` resource. -/
structure Error where
  Title : String
  Description : String
  HTTPStatus : Nat
  deriving DecidableEq, Repr

/-- The `stones.Bundle` type; `Objects` are raw JSON messages. -/
structure Bundle where
  Type_ : String
  ID : String
  SpecVersion : String
  Objects : List String
  deriving DecidableEq, Repr

/-- The `cabby.Object` resource; `Object` is the raw JSON payload. -/
structure Object where
  ID : String
  Type_ : String
  Created : String
  Modified : String
  Object : String
  CollectionID : Cabby.ID
  deriving DecidableEq, Repr

/-- The filter handed through to the storage collaborator (`cabby.Filter`), left opaque. -/
abbrev Filter := String

/-- The parts of `*http.Request` the handlers read. `Header` is `r.Header.Get`, `Body` is the
outcome of `ioutil.ReadAll(r.Body)`, `UserCollectionList` is the access map carried by the
request context (`none` when the context has none). -/
structure Request where
  Method : String
  Path : String
  RawQuery : String
  Header : String → String
  ContentLength : Int
  Body : String × Option String
  UserCollectionList : Option (List (ID × CollectionAccess))

/-- Functions of other libraries that the handlers call: `json.Unmarshal` into a
`stones.Bundle` (the bundle as filled in, and the error), `(*stones.Bundle).Validate`,
`stones.NewBundle`, `fmt.Errorf` applied to a format string with no operands, the UUID syntax
check behind `cabby.IDFromString`, and the identifier `cabby.NewID` hands out. -/
structure Lib where
  Unmarshal : String → Bundle × Option String
  Validate : Bundle → Bool × List String
  NewBundle : Bundle × Option String
  Errorf : String → String
  IDFromString : String → Option ID
  NewID : ID

/-- The `cabby.StatusService` interface as the handler uses it: the error `CreateStatus`
returns for a status (`none` is `nil`). -/
structure StatusService where
  CreateStatus : Status → Option String

/-- The `cabby.ObjectService` interface as the handlers use it. `Objects` receives the
collection id, a pointer to the parsed range and the filter; it returns the objects, the
range as it leaves it behind that pointer (it may write any field) and the error. `Object`
receives the collection id, the object id and the filter. -/
structure ObjectService where
  Objects : String → Range → Filter → List Cabby.Object × Range × Option String
  Object : String → String → Filter → List Cabby.Object × Option String

/-- The `ObjectsHandler` struct of `http/objects.go`. -/
structure ObjectsHandler where
  ObjectService : Cabby.ObjectService
  StatusService : Cabby.StatusService
  MaxContentLength : Int

/-- What `resourceToJSON` is applied to before the text is written to the response. -/
inductive Resource where
  | error (e : Error)
  | status (s : Status)
  | bundle (b : Bundle)
  deriving DecidableEq, Repr

/-- One effect of a handler: a call on the `http.ResponseWriter`, a call of
`StatusService.CreateStatus`, or the `go` statement starting `ObjectService.CreateBundle`. -/
inductive Event where
  | setHeader (key value : String)
  | writeHeader (code : Nat)
  | writeString (body : Resource)
  | createStatus (s : Status)
  | goCreateBundle (b : Bundle) (collectionID : String) (s : Status)
  deriving DecidableEq, Repr

/-- The status code a client sees: the first `WriteHeader`, or 200 when the body is written
before any `WriteHeader` (or nothing is written at all). -/
def statusCode : List Event → Nat
  | [] => 200
  | Event.writeHeader code :: _ => code
  | Event.writeString _ :: _ => 200
  | _ :: es => statusCode es

/-- The bodies written to the response, in order. -/
def responseBody : List Event → List Resource
  | [] => []
  | Event.writeString b :: es => b :: responseBody es
  | _ :: es => responseBody es

/-- The value of a response header: the last one set before the status line is sent. -/
def responseHeader (key : String) : List Event → Option String
  | [] => none
  | Event.setHeader k v :: es =>
    match responseHeader key es with
    | some later => some later
    | none => if k = key then some v else none
  | Event.writeHeader _ :: _ => none
  | Event.writeString _ :: _ => none
  | _ :: es => responseHeader key es

/-- The statuses handed to `StatusService.CreateStatus`, in order. -/
def createdStatuses : List Event → List Status
  | [] => []
  | Event.createStatus s :: es => s :: createdStatuses es
  | _ :: es => createdStatuses es

/-- The number of `ObjectService.CreateBundle` goroutines started. -/
def launchedBundles : List Event → Nat
  | [] => 0
  | Event.goCreateBundle _ _ _ :: es => launchedBundles es + 1
  | _ :: es => launchedBundles es

/-! ## Package `http`: `error.go` -/

/-- The function `errorStatus` of `http/error.go`: sets the content type, writes the status code and the
error resource. -/
def errorStatus (title : String) (err : String) (status : Nat) : List Event :=
  [Event.setHeader "Content-Type" TaxiiContentType,
   Event.writeHeader status,
   Event.writeString (Resource.error { Title := title, Description := err, HTTPStatus := status })]

/-- The helper `badRequest` of `http/error.go`. -/
def badRequest (err : String) : List Event := errorStatus "Bad Request" err 400

/-- The helper `forbidden` of `http/error.go`. -/
def forbidden (err : String) : List Event := errorStatus "Forbidden" err 403

/-- The helper `internalServerError` of `http/error.go`. -/
def internalServerError (err : String) : List Event :=
  errorStatus "Internal Server Error" err 500

/-- The helper `resourceNotFound` of `http/error.go`. -/
def resourceNotFound (err : String) : List Event := errorStatus "Resource Not Found" err 404

/-- The helper `requestTooLarge` of `http/error.go`; the error text names both lengths. -/
def requestTooLarge (rc mc : Int) : List Event :=
  errorStatus "Request Too large"
    ("content length is " ++ toString rc ++ ", content length can't be bigger than " ++
      toString mc) 413

/-- The helper `rangeNotSatisfiable` of `http/error.go`. -/
def rangeNotSatisfiable (err : String) : List Event :=
  errorStatus "Requested Range Not Satisfiable" err 416

/-- The helper `unsupportedMediaType` of `http/error.go`. -/
def unsupportedMediaType (err : String) : List Event :=
  errorStatus "Unsupported Media Type" err 415

/-! ## Package `http`: request helpers -/

/-- Modelled from the spec: `getToken` is not among the sources; `TestGetToken` fixes it as
the `index`-th part of the path split at `/`, or the empty string when there is none. -/
def getToken (path : String) (index : Nat) : String :=
  String.mk ((splitSep '/' path.data).getD index [])

/-- Modelled from the spec: `takeCollectionID` is only present as the commented-out draft of
`http/requests.go`: token 3 of the URL path. -/
def takeCollectionID (r : Request) : String := getToken r.Path 3

/-- Modelled from the spec: `takeObjectID` is only present as the commented-out draft of
`http/requests.go`: token 5 of the URL path. -/
def takeObjectID (r : Request) : String := getToken r.Path 5

/-- Modelled from the spec: `newFilter` is not among the sources; the filter is an opaque
value taken from the query string and passed through to the storage collaborator. -/
def newFilter (r : Request) : Filter := r.RawQuery

/-- Modelled from the spec: `takeCollectionAccess` is only present as the commented-out draft
of `http/requests.go`. Spec §4.5: `resolve(user, collectionID) -> CollectionAccess` never
errors; an absent mapping yields all-false. -/
def takeCollectionAccess (lib : Lib) (r : Request) : CollectionAccess :=
  match r.UserCollectionList with
  | none => CollectionAccess.zero
  | some ca =>
    match lib.IDFromString (takeCollectionID r) with
    | none => CollectionAccess.zero
    | some tid => (ca.lookup tid).getD CollectionAccess.zero

/-- Modelled from the spec: `verifySupportedMimeType` is not among the sources. Spec §4.4:
the named header must equal the given media type; otherwise the request is answered with
the unsupported-media-type client error (the wording follows `WithAcceptType`). -/
def verifySupportedMimeType (r : Request) (mimeHeader mimeType : String) : Bool × List Event :=
  let mime := r.Header mimeHeader
  if mime ≠ mimeType then
    (false, unsupportedMediaType ("Invalid '" ++ mimeHeader ++ "' Header: " ++ mime))
  else (true, [])

/-- Modelled from the spec: `writeContent` is not among the sources. Spec §6: the content is
written with its content type and no explicit status code. -/
def writeContent (contentType : String) (content : Resource) : List Event :=
  [Event.setHeader "Content-Type" contentType, Event.writeString content]

/-- Modelled from the spec: `writePartialContent` is not among the sources. Spec §6: a ranged
listing is answered `206`. -/
def writePartialContent (contentType : String) (content : Resource) : List Event :=
  [Event.setHeader "Content-Type" contentType, Event.writeHeader 206,
   Event.writeString content]

/-! ## Package `http`: `objects.go` -/

/-- The function `bundleFromBytes` of `http/objects.go`. -/
def bundleFromBytes (lib : Lib) (b : String) : Bundle × Option String :=
  match lib.Unmarshal b with
  | (bundle, some err) =>
    (bundle, some ("Unable to convert json to bundle, error: " ++ err))
  | (bundle, none) =>
    match lib.Validate bundle with
    | (false, errs) =>
      let errString :=
        errs.foldl (fun acc e => acc ++ ("\nValidation Error: " ++ e)) "Invalid bundle:"
      (bundle, some (lib.Errorf errString))
    | (true, _) => (bundle, none)

/-- The function `greaterThan` of `http/objects.go`. -/
def greaterThan (r m : Int) : Bool :=
  if r > m then true else false

/-- The function `objectsToBundle` of `http/objects.go`. -/
def objectsToBundle (lib : Lib) (objects : List Object) : Bundle × Option String :=
  match lib.NewBundle with
  | (bundle, some err) => (bundle, some err)
  | (bundle, none) =>
    let filled : Bundle :=
      { bundle with Objects := bundle.Objects ++ objects.map (fun o => o.Object) }
    if filled.Objects.length = 0 then (filled, some "No data returned: empty bundle")
    else (filled, none)

/-- The function `ObjectsHandler.validPost` of `http/objects.go`: the result `isValid` and the effects. -/
def ObjectsHandler.validPost (lib : Lib) (h : ObjectsHandler) (r : Request) :
    Bool × List Event :=
  match verifySupportedMimeType r "Accept" TaxiiContentType with
  | (false, e1) => (false, e1)
  | (true, e1) =>
    match verifySupportedMimeType r "Content-Type" StixContentType with
    | (false, e2) => (false, e1 ++ e2)
    | (true, e2) =>
      if greaterThan r.ContentLength h.MaxContentLength then
        (false, e1 ++ e2 ++ requestTooLarge r.ContentLength h.MaxContentLength)
      else if !(takeCollectionAccess lib r).CanWrite then
        (false, e1 ++ e2 ++ forbidden "Unauthorized to write to collection")
      else (true, e1 ++ e2)

/-- The function `ObjectsHandler.Post` of `http/objects.go`: the effects in program order. -/
def ObjectsHandler.Post (lib : Lib) (h : ObjectsHandler) (r : Request) : List Event :=
  match h.validPost lib r with
  | (false, ev) => ev
  | (true, ev) =>
    match r.Body with
    | (_, some err) => ev ++ badRequest err
    | (body, none) =>
      match bundleFromBytes lib body with
      | (_, some err) => ev ++ badRequest err
      | (bundle, none) =>
        match NewStatus (bundle.Objects.length : Nat) lib.NewID with
        | (_, some _) => ev ++ internalServerError "Unable to initialize status resource"
        | (status, none) =>
          match h.StatusService.CreateStatus status with
          | some _ =>
            ev ++ Event.createStatus status ::
              internalServerError "Unable to store status resource"
          | none =>
            ev ++ [Event.createStatus status,
                   Event.setHeader "Content-Type" TaxiiContentType,
                   Event.writeHeader 202] ++
              writeContent TaxiiContentType (Resource.status status) ++
              [Event.goCreateBundle bundle (takeCollectionID r) status]

/-- The function `ObjectsHandler.getObjects` of `http/objects.go`. -/
def ObjectsHandler.getObjects (lib : Lib) (h : ObjectsHandler) (r : Request) : List Event :=
  match NewRange (r.Header "Range") with
  | (_, some err) => rangeNotSatisfiable err
  | (parsed, none) =>
    match h.ObjectService.Objects (takeCollectionID r) parsed (newFilter r) with
    | (_, _, some err) => internalServerError err
    | (objects, cr, none) =>
      if objects.length ≤ 0 then resourceNotFound "No objects defined in this collection"
      else
        match objectsToBundle lib objects with
        | (_, some _) => internalServerError "Unable to create bundle"
        | (bundle, none) =>
          if cr.Valid then
            Event.setHeader "Content-Range" cr.String ::
              writePartialContent StixContentType (Resource.bundle bundle)
          else writeContent StixContentType (Resource.bundle bundle)

/-- The function `ObjectsHandler.getObject` of `http/objects.go`. -/
def ObjectsHandler.getObject (lib : Lib) (h : ObjectsHandler) (r : Request) : List Event :=
  match h.ObjectService.Object (takeCollectionID r) (takeObjectID r) (newFilter r) with
  | (_, some err) => internalServerError err
  | (objects, none) =>
    if objects.length ≤ 0 then resourceNotFound "No objects defined in this collection"
    else
      match objectsToBundle lib objects with
      | (_, some _) => internalServerError "Unable to create bundle"
      | (bundle, none) => writeContent StixContentType (Resource.bundle bundle)

/-- The function `ObjectsHandler.Get` of `http/objects.go`. -/
def ObjectsHandler.Get (lib : Lib) (h : ObjectsHandler) (r : Request) : List Event :=
  match verifySupportedMimeType r "Accept" StixContentType with
  | (false, ev) => ev
  | (true, ev) =>
    if takeObjectID r = "" then ev ++ h.getObjects lib r
    else ev ++ h.getObject lib r

/-- The effects of an accepted submission, in program order. -/
def acceptedTrace (bundle : Bundle) (collectionID : String) (st : Status) : List Event :=
  [Event.createStatus st,
   Event.setHeader "Content-Type" TaxiiContentType,
   Event.writeHeader 202,
   Event.setHeader "Content-Type" TaxiiContentType,
   Event.writeString (Resource.status st),
   Event.goCreateBundle bundle collectionID st]

/-! ## Example data, after `tester/resources.go` and the handler tests -/

/-- The collection id of `tester/resources.go`. -/
def testCollectionID : String := "82407036-edf9-4c75-9a56-e72697c53e99"

/-- A bundle of three objects, standing for `testdata/malware_bundle.json`. -/
def testBundle : Bundle :=
  { Type_ := "bundle", ID := "bundle--5d0092c5-5f74-4287-9642-33f4c354e56d",
    SpecVersion := "2.0", Objects := ["indicator--1", "malware--1", "relationship--1"] }

/-- The bundle of `TestObjectsHandlerPostEmptyBundle`: well-formed, with no objects. -/
def testEmptyBundle : Bundle := { testBundle with Objects := [] }

/-- Library behaviour used in the examples: two request bodies decode, a bundle is valid when
it has the bundle type and at least one object, and fresh bundles and ids are available. -/
def testLib : Lib :=
  { Unmarshal := fun b =>
      if b = "malware_bundle.json" then (testBundle, none)
      else if b = "empty_bundle.json" then (testEmptyBundle, none)
      else ({ Type_ := "", ID := "", SpecVersion := "", Objects := [] },
            some "unexpected end of JSON input")
    Validate := fun b =>
      if b.Type_ = "bundle" ∧ b.Objects ≠ [] then (true, []) else (false, ["invalid bundle"])
    NewBundle := ({ Type_ := "bundle", ID := "bundle--1", SpecVersion := "2.0", Objects := [] },
      none)
    Errorf := fun format => format
    IDFromString := fun s => if s.length = 36 then some s else none
    NewID := "0f7e5c2a-6c1b-4d0e-9f59-2b1c3d4e5f60" }

/-- The object of `tester/resources.go`. -/
def testObject : Object :=
  { ID := "malware--31b940d4-6f7f-459a-80ea-9c1f17b5891b", Type_ := "malware",
    Created := "2016-04-06T20:07:09.000Z", Modified := "2016-04-06T20:07:09.000Z",
    Object := "malware--31b940d4-6f7f-459a-80ea-9c1f17b5891b",
    CollectionID := testCollectionID }

/-- A handler over mock services: the object service returns one object and sets the total
of the range to one, as the mock of `TestObjectsHandlerGetObjectsRange` does; the status
service stores every status. -/
def testHandler : ObjectsHandler :=
  { ObjectService :=
      { Objects := fun _ cr _ => ([testObject], { cr with Total := 1 }, none)
        Object := fun _ _ _ => ([testObject], none) }
    StatusService := { CreateStatus := fun _ => none }
    MaxContentLength := 2048 }

/-- The same handler over a status service that fails, as in `TestObjectsPostStatusFail`. -/
def testHandlerStatusFail : ObjectsHandler :=
  { testHandler with StatusService := { CreateStatus := fun _ => some "fail" } }

/-- A POST of the three-object bundle by a user who may write to the collection. -/
def testPost : Request :=
  { Method := "POST"
    Path := "/cabby_test_root/collections/82407036-edf9-4c75-9a56-e72697c53e99/objects/"
    RawQuery := ""
    Header := fun k =>
      if k = "Accept" then TaxiiContentType
      else if k = "Content-Type" then StixContentType
      else ""
    ContentLength := 1024
    Body := ("malware_bundle.json", none)
    UserCollectionList :=
      some [(testCollectionID, { ID := testCollectionID, CanRead := true, CanWrite := true })] }

/-- The same POST by a user without an access entry for the collection. -/
def testPostNoAccess : Request := { testPost with UserCollectionList := some [] }

/-- The same POST carrying the bundle without objects. -/
def testPostEmpty : Request := { testPost with Body := ("empty_bundle.json", none) }

/-- A list request for the objects of the collection with the given `Range` header text
(empty when the header is absent). -/
def testGet (range : String) : Request :=
  { Method := "GET"
    Path := "/cabby_test_root/collections/82407036-edf9-4c75-9a56-e72697c53e99/objects/"
    RawQuery := ""
    Header := fun k =>
      if k = "Accept" then StixContentType
      else if k = "Range" then range
      else ""
    ContentLength := 0
    Body := ("", none)
    UserCollectionList :=
      some [(testCollectionID, { ID := testCollectionID, CanRead := true, CanWrite := true })] }

/-- Library behaviour in which `stones.NewBundle` fails. -/
def testLibNoBundle : Lib :=
  { testLib with
    NewBundle := ({ Type_ := "", ID := "", SpecVersion := "", Objects := [] },
      some "could not generate an identifier") }

/-! ## Package `http`: `handlers.go` -/

/-- The function `splitAcceptHeader` of `http/handlers.go`. The result is `none` when an index
into the split parts is out of range, which is a panic in Go. -/
def splitAcceptHeader (h : String) : Option (String × String) :=
  let parts := splitSep ';' h.data
  match parts[0]? with
  | none => none
  | some first =>
    if parts.length > 1 then
      match parts[1]? with
      | none => none
      | some second => some (String.mk first, String.mk second)
    else some (String.mk first, "")

/-- The decorator `WithAcceptType` of `http/handlers.go`, applied to the wrapped handler `h`:
the effects of the decorated handler, or `none` when `splitAcceptHeader` panics. -/
def WithAcceptType (h : Request → List Event) (typeToCheck : String) (r : Request) :
    Option (List Event) :=
  match splitAcceptHeader (r.Header "Accept") with
  | none => none
  | some (contentType, _) =>
    if contentType ≠ typeToCheck then
      some (unsupportedMediaType ("Invalid 'Accept' Header: " ++ contentType))
    else some (h r)

/-- The part of a header text before its first `;` (all of it when there is none). -/
def beforeSemicolon (h : String) : String := String.mk (h.data.takeWhile (fun c => c != ';'))

/-- The part of a header text between its first and its second `;` (up to the end when there
is no second one; empty when there is no first one). -/
def afterSemicolon (h : String) : String :=
  String.mk ((((h.data.dropWhile (fun c => c != ';')).drop 1)).takeWhile (fun c => c != ';'))

/-! ## Package `sqlite`: `collection.go` -/

/-- The `cabby.Collection` resource. -/
structure Collection where
  ID : ID
  APIRootPath : String
  Title : String
  Description : String
  CanRead : Bool
  CanWrite : Bool
  MediaTypes : List String
  deriving DecidableEq, Repr

/-- Modelled from the spec: `Collection.Validate` lives in `cabby.go`, which is not among the
sources; `TestCollectionValidate` fixes that a collection with an empty ID or an empty title
is rejected and one with both is accepted. -/
def Collection.Validate (c : Collection) : Option String :=
  if c.ID = "" then some "Invalid id"
  else if c.Title = "" then some "Invalid title"
  else none

namespace Sqlite

/-- One statement handed to `DataStore.write`: the SQL text and its arguments. -/
structure Statement where
  sql : String
  args : List String
  deriving DecidableEq, Repr

/-- The `CollectionService` struct of `sqlite/collection.go` as the two write operations use
it: `write` is the error `s.DataStore.write(sql, args...)` returns (`none` is `nil`). -/
structure CollectionService where
  write : String → List String → Option String

/-- The function `CollectionService.createCollection` of `sqlite/collection.go`: the error
returned and the statements written. -/
def CollectionService.createCollection (s : CollectionService) (c : Collection) :
    Option String × List Statement :=
  let sql := "insert into taxii_collection (id, api_root_path, title, description, media_types)\n\t\t\t\t\tvalues (?, ?, ?, ?, ?)"
  let args := [c.ID, c.APIRootPath, c.Title, c.Description, ",".intercalate c.MediaTypes]
  (s.write sql args, [{ sql := sql, args := args }])

/-- The function `CollectionService.CreateCollection` of `sqlite/collection.go`. -/
def CollectionService.CreateCollection (s : CollectionService) (c : Collection) :
    Option String × List Statement :=
  match c.Validate with
  | none => s.createCollection c
  | some err => (some err, [])

/-- The function `CollectionService.updateCollection` of `sqlite/collection.go`. -/
def CollectionService.updateCollection (s : CollectionService) (c : Collection) :
    Option String × List Statement :=
  let sql := "update taxii_collection set api_root_path = ?, title = ?, description = ? where id = ?"
  let args := [c.APIRootPath, c.Title, c.Description, c.ID]
  (s.write sql args, [{ sql := sql, args := args }])

/-- The function `CollectionService.UpdateCollection` of `sqlite/collection.go`. -/
def CollectionService.UpdateCollection (s : CollectionService) (c : Collection) :
    Option String × List Statement :=
  match c.Validate with
  | none => s.updateCollection c
  | some err => (some err, [])

end Sqlite

/-- The collection of `tester/resources.go`. -/
def testCollection : Collection :=
  { ID := testCollectionID, APIRootPath := "cabby_test_root", Title := "test collection",
    Description := "collection for testing", CanRead := true, CanWrite := true,
    MediaTypes := [] }

/-- A collection service whose data store accepts every statement. -/
def testCollectionService : Sqlite.CollectionService := { write := fun _ _ => none }

/-! ## Package `http`: the remaining helpers of `error.go` -/

/-- The helper `methodNotAllowed` of `http/error.go`. -/
def methodNotAllowed (err : String) : List Event := errorStatus "Method Not Allowed" err 405

/-- The helper `unauthorized` of `http/error.go`: it sets the `WWW-Authenticate` header before
the error is written. -/
def unauthorized (err : String) : List Event :=
  Event.setHeader "WWW-Authenticate" "Basic realm=TAXII 2.0" :: errorStatus "Unauthorized" err 401

/-! ## Go's `fmt` applied to a format string without operands -/

/-- What package `fmt` prints for a format string when no operand is given, after its
documentation: text is copied, `%%` prints `%`, a verb `v` with no operand prints
`%!v(MISSING)`, and a `%` that ends the string prints `%!(NOVERB)`. Flags, width, precision
and argument indexes between `%` and the verb are not modelled: the model is exact on
formats in which every `%` is directly followed by its verb or ends the string. -/
def fmtNoOperands : List Char → List Char
  | [] => []
  | '%' :: [] => "%!(NOVERB)".data
  | '%' :: '%' :: rest => '%' :: fmtNoOperands rest
  | '%' :: v :: rest => "%!".data ++ v :: "(MISSING)".data ++ fmtNoOperands rest
  | c :: rest => c :: fmtNoOperands rest

/-- Library behaviour in which `fmt.Errorf` treats its argument as a format string, and the
validator reports one message that quotes a name from the submitted bundle. -/
def testLibFmt : Lib :=
  { testLib with
    Validate := fun _ => (false, ["invalid name: Poison%dIvy"])
    Errorf := fun format => String.mk (fmtNoOperands format.data) }

/-- The text claimed for an aggregated validation error: `Invalid bundle:` followed, for each
message in order, by a new line, `Validation Error: ` and the message. -/
def aggregatedText (errs : List String) : String :=
  "Invalid bundle:" ++ errs.foldr (fun e rest => "\nValidation Error: " ++ e ++ rest) ""

/-- The response written by `evs` is the structured error `title`, `description`, `status`,
sent with the HTTP status code `status`. -/
def isErrorResponse (evs : List Event) (title description : String) (status : Nat) : Prop :=
  statusCode evs = status ∧
    responseBody evs =
      [Resource.error { Title := title, Description := description, HTTPStatus := status }]

/-- The request of `TestTakeCollectionAccessInvalidCollection`: no access map in the context
and a path without a collection id. -/
def testGetNoContext : Request :=
  { testGet "" with Path := "/foo/bar/baz", UserCollectionList := none }

/-- The handler of `TestObjectsHandlerPostContentTooLarge`, with a maximum content length
of 1. -/
def testHandlerSmall : ObjectsHandler := { testHandler with MaxContentLength := 1 }

/-- The three-object POST sent without a declared length (`ContentLength` is -1). -/
def testPostUnknownLength : Request := { testPost with ContentLength := -1 }

/-- A handler whose object service fails, as in `TestObjectsGetObjectsFailure` and
`TestObjectsHandlerGetObjectFailure`. -/
def testHandlerObjectsFail : ObjectsHandler :=
  { testHandler with
    ObjectService :=
      { Objects := fun _ cr _ => ([], cr, some "Collection failure")
        Object := fun _ _ _ => ([], some "Object failure") } }

/-- A handler whose object service finds nothing, as in
`TestObjectsHandlerGetObjectsNoObjects` and `TestObjectsHandlerGetObjectNoObject`. -/
def testHandlerNoObjects : ObjectsHandler :=
  { testHandler with
    ObjectService :=
      { Objects := fun _ cr _ => ([], cr, none)
        Object := fun _ _ _ => ([], none) } }

/-- A list request whose `Accept` header is the given text. -/
def testGetAccept (accept : String) : Request :=
  { testGet "" with Header := fun k => if k = "Accept" then accept else "" }

/-- A handler whose object service returns one object and writes the window it materialized
into the range: `First` 0, `Last` 0, `Total` 1. -/
def testHandlerClamping : ObjectsHandler :=
  { testHandler with
    ObjectService :=
      { Objects := fun _ _ _ => ([testObject], { First := 0, Last := 0, Total := 1 }, none)
        Object := fun _ _ _ => ([testObject], none) } }

/-- A handler whose object service returns one object and resets the range to the
sentinel. -/
def testHandlerResetting : ObjectsHandler :=
  { testHandler with
    ObjectService :=
      { Objects := fun _ _ _ => ([testObject], Range.sentinel, none)
        Object := fun _ _ _ => ([testObject], none) } }

/-- Library behaviour in which the validator accepts every bundle. -/
def testLibLenient : Lib := { testLib with Validate := fun _ => (true, []) }

/-- A numeric token of the range grammar (spec §4.1): a non-empty run of the decimal digits
`0`..`9`. -/
def numericToken (cs : List Char) : Prop := cs ≠ [] ∧ cs.all Char.isDigit = true

instance decNumericToken (cs : List Char) : Decidable (numericToken cs) :=
  inferInstanceAs (Decidable (cs ≠ [] ∧ cs.all Char.isDigit = true))

/-- A handler whose object service returns one object and leaves the range it is handed
untouched. -/
def testHandlerNoTotal : ObjectsHandler :=
  { testHandler with
    ObjectService :=
      { Objects := fun _ cr _ => ([testObject], cr, none)
        Object := fun _ _ _ => ([testObject], none) } }

/-! # Theorems -/

/-! ## Decimal rendering and parsing agree -/

theorem digitChar_spec (k : Nat) (h : k < 10) :
    (Nat.digitChar k).isDigit = true ∧ Nat.digitChar k ≠ '-' ∧ digitValue (Nat.digitChar k) = k := by
  interval_cases k <;> decide

theorem toDigitsCore_spec (fuel : Nat) : ∀ (n : Nat) (ds : List Char), n < fuel →
    ∃ pre : List Char, Nat.toDigitsCore 10 fuel n ds = pre ++ ds ∧ pre ≠ [] ∧
      (∀ c ∈ pre, c.isDigit = true ∧ c ≠ '-') ∧
      pre.foldl (fun acc c => acc * 10 + digitValue c) 0 = n := by
  induction fuel with
  | zero => intro n ds h; omega
  | succ fuel ih =>
    intro n ds h
    have hd := digitChar_spec (n % 10) (Nat.mod_lt n (by decide))
    by_cases h0 : n / 10 = 0
    · refine ⟨[Nat.digitChar (n % 10)], ?_, by simp, ?_, ?_⟩
      · simp [Nat.toDigitsCore, h0]
      · intro c hc
        simp only [List.mem_singleton] at hc
        subst hc
        exact ⟨hd.1, hd.2.1⟩
      · simp only [List.foldl_cons, List.foldl_nil, hd.2.2]
        omega
    · obtain ⟨pre, hpre, hne, hall, hval⟩ :=
        ih (n / 10) (Nat.digitChar (n % 10) :: ds) (by omega)
      refine ⟨pre ++ [Nat.digitChar (n % 10)], ?_, by simp, ?_, ?_⟩
      · simp [Nat.toDigitsCore, h0, hpre]
      · intro c hc
        rcases List.mem_append.mp hc with hc | hc
        · exact hall c hc
        · simp only [List.mem_singleton] at hc
          subst hc
          exact ⟨hd.1, hd.2.1⟩
      · simp only [List.foldl_append, List.foldl_cons, List.foldl_nil, hval, hd.2.2]
        omega

theorem repr_data_spec (n : Nat) :
    (Nat.repr n).data ≠ [] ∧ (∀ c ∈ (Nat.repr n).data, c.isDigit = true ∧ c ≠ '-') ∧
      (Nat.repr n).data.foldl (fun acc c => acc * 10 + digitValue c) 0 = n := by
  obtain ⟨pre, hpre, hne, hall, hval⟩ := toDigitsCore_spec (n + 1) n [] (by omega)
  have hdata : (Nat.repr n).data = pre := by
    simp [Nat.repr, Nat.toDigits, hpre, List.asString]
  rw [hdata]
  exact ⟨hne, hall, hval⟩

theorem parseNumber_repr (n : Nat) (h : (n : Int) ≤ maxInt64) :
    parseNumber (Nat.repr n).data = some (n : Int) := by
  obtain ⟨hne, hall, hval⟩ := repr_data_spec n
  have hdig : (Nat.repr n).data.all Char.isDigit = true := by
    rw [List.all_eq_true]
    intro c hc
    exact (hall c hc).1
  simp only [parseNumber, hne, hdig, hval, h, if_true, if_false]

theorem takeWhile_dash (pre tl : List Char) (h : ∀ c ∈ pre, c ≠ '-') :
    (pre ++ '-' :: tl).takeWhile (fun c => c != '-') = pre ∧
      (pre ++ '-' :: tl).dropWhile (fun c => c != '-') = '-' :: tl := by
  induction pre with
  | nil => simp
  | cons c cs ih =>
    have hc : c ≠ '-' := h c (by simp)
    have ih2 := ih (fun d hd => h d (by simp [hd]))
    have hb : (c != '-') = true := by simp [hc]
    rw [List.cons_append, List.takeWhile_cons, List.dropWhile_cons, hb]
    simp only [if_true, ih2.1, ih2.2, and_self]

theorem dropKeyword_append (kw rest : List Char) : dropKeyword kw (kw ++ rest) = some rest := by
  induction kw with
  | nil => cases rest <;> rfl
  | cons k ks ih => simp [dropKeyword, ih]

/-- The text `items <a>-<b>` of two naturals that fit an `int64` parses to that pair. -/
theorem NewRange_items (a b : Nat) (ha : (a : Int) ≤ maxInt64) (hb : (b : Int) ≤ maxInt64) :
    NewRange ("items " ++ Nat.repr a ++ "-" ++ Nat.repr b) =
      ({ First := (a : Int), Last := (b : Int), Total := 0 }, none) := by
  have hdata : ("items " ++ Nat.repr a ++ "-" ++ Nat.repr b).data =
      "items ".data ++ ((Nat.repr a).data ++ '-' :: (Nat.repr b).data) := by
    simp [String.data_append]
  have hne : ("items " ++ Nat.repr a ++ "-" ++ Nat.repr b) ≠ "" := by
    intro h
    have := congrArg String.data h
    rw [hdata] at this
    simp at this
  have hsplit := takeWhile_dash (Nat.repr a).data (Nat.repr b).data
    (fun c hc => ((repr_data_spec a).2.1 c hc).2)
  simp only [NewRange, hne, if_false, hdata, dropKeyword_append, hsplit.1, hsplit.2,
    parseNumber_repr a ha, parseNumber_repr b hb]

theorem toString_natCast (n : Nat) : toString ((n : Nat) : Int) = Nat.repr n := rfl

theorem parseNumber_slash (pre tl : List Char) : parseNumber (pre ++ '/' :: tl) = none := by
  have hne : pre ++ '/' :: tl ≠ [] := by simp
  have hall : (pre ++ '/' :: tl).all Char.isDigit = false := by
    rw [List.all_eq_false]
    exact ⟨'/', by simp, by decide⟩
  simp [parseNumber, hne, hall]

/-- The text `items <a>-<b>/<t>` is rejected: `<b>/<t>` is not a numeric token. -/
theorem NewRange_items_total (a b : Nat) (t : String) (ha : (a : Int) ≤ maxInt64) :
    NewRange ("items " ++ Nat.repr a ++ "-" ++ Nat.repr b ++ "/" ++ t) =
      (Range.sentinel, some invalidRangeError) := by
  have hdata : ("items " ++ Nat.repr a ++ "-" ++ Nat.repr b ++ "/" ++ t).data =
      "items ".data ++ ((Nat.repr a).data ++ '-' :: ((Nat.repr b).data ++ '/' :: t.data)) := by
    simp [String.data_append]
  have hne : ("items " ++ Nat.repr a ++ "-" ++ Nat.repr b ++ "/" ++ t) ≠ "" := by
    intro h
    have := congrArg String.data h
    rw [hdata] at this
    simp at this
  have hsplit := takeWhile_dash (Nat.repr a).data ((Nat.repr b).data ++ '/' :: t.data)
    (fun c hc => ((repr_data_spec a).2.1 c hc).2)
  simp only [NewRange, hne, if_false, hdata, dropKeyword_append, hsplit.1, hsplit.2,
    parseNumber_repr a ha, parseNumber_slash]

/-- Claim C1, as amended: for every valid range `r` (`First >= 0`, `Last >= First`) with
`int64` fields, `NewRange(r.String())` returns no error and the pair `First`, `Last` of `r`
(with `Total` 0) when `r.Total = 0`; when `r.Total != 0` the serialized text ends in
`/<Total>`, which is outside the request grammar, and `NewRange` returns the parse error
together with the sentinel. -/
theorem C1_range_roundtrip (r : Range) (hv : r.Valid = true) (h64 : r.inInt64) :
    (r.Total = 0 →
      NewRange r.String = ({ First := r.First, Last := r.Last, Total := 0 }, none)) ∧
    (r.Total ≠ 0 → NewRange r.String = (Range.sentinel, some invalidRangeError)) := by
  obtain ⟨f, l, t⟩ := r
  simp only [Range.Valid, Bool.and_eq_true, decide_eq_true_eq] at hv
  obtain ⟨hf, hl⟩ := hv
  obtain ⟨⟨_, hf64⟩, ⟨_, hl64⟩, _⟩ := h64
  simp only at hf hl hf64 hl64
  obtain ⟨a, rfl⟩ := Int.eq_ofNat_of_zero_le hf
  obtain ⟨b, rfl⟩ := Int.eq_ofNat_of_zero_le (le_trans hf hl)
  constructor
  · intro ht
    simp only at ht
    subst ht
    simp only [Range.String, ne_eq, not_true_eq_false, if_false, toString_natCast]
    exact NewRange_items a b hf64 hl64
  · intro ht
    simp only [ne_eq] at ht
    simp only [Range.String, ne_eq, ht, not_false_eq_true, if_true, toString_natCast]
    exact NewRange_items_total a b (toString t) hf64

/-- Witness for C1: the range `{First: 2, Last: 7, Total: 0}`. -/
theorem C1_range_roundtrip_witness :
    NewRange (Range.mk 2 7 0).String = ({ First := 2, Last := 7, Total := 0 }, none) :=
  (C1_range_roundtrip (Range.mk 2 7 0) (by decide) (by decide)).1 rfl

/-- Counterexample to C1 as stated: `{First: 0, Last: 0, Total: 50}` is valid, serializes to
`items 0-0/50`, and `NewRange` of that text returns an error and the sentinel. -/
theorem C1_counterexample :
    (Range.mk 0 0 50).Valid = true ∧ (Range.mk 0 0 50).inInt64 ∧
      (Range.mk 0 0 50).String = "items 0-0/50" ∧
      NewRange (Range.mk 0 0 50).String = (Range.sentinel, some invalidRangeError) ∧
      (NewRange (Range.mk 0 0 50).String).2 ≠ none ∧
      (NewRange (Range.mk 0 0 50).String).1.First ≠ (Range.mk 0 0 50).First := by
  decide

/-! ## Status records keep the count invariant -/

theorem NewStatus_invariant (objects : Int) (id : ID) (st : Status)
    (h : NewStatus objects id = (st, none)) : st.Invariant := by
  unfold NewStatus at h
  split at h
  · simp at h
  · rename_i hn
    simp only [Prod.mk.injEq, and_true] at h
    subst h
    refine ⟨by simp, ?_, fun _ => rfl⟩
    constructor
    · intro hc
      simp at hc
    · intro hp
      simp only at hp
      omega

theorem find_map_update (rows : List Status) (id : ID) (record row : Status)
    (hid : record.ID = id)
    (h : (rows.map (fun r => if r.ID == id then record else r)).find? (fun r => r.ID == id)
      = some row) : row = record := by
  induction rows with
  | nil => simp at h
  | cons r rs ih =>
    by_cases hr : r.ID = id
    · simp [List.find?, hr, hid] at h
      exact h.symm
    · have hr2 : (r.ID == id) = false := by simpa using hr
      simp only [List.map_cons, hr2, List.find?, Bool.false_eq_true, if_false] at h
      exact ih h

/-- Claim C2: a status returned by `NewStatus` without error, and the record read back under
the updated id after a successful `StatusService.UpdateStatus`, both satisfy
`PendingCount = TotalCount - SuccessCount - FailureCount` with label `complete` exactly
when `PendingCount = 0` and `pending` otherwise; the stored record keeps the three counts
passed in and ignores the `PendingCount` and label passed in. -/
theorem C2_status_invariant (objects : Int) (id : ID) (created : Status)
    (ds ds1 : Sqlite.DataStore) (st row : Status)
    (hnew : NewStatus objects id = (created, none))
    (hupd : Sqlite.StatusService.UpdateStatus ds st = (ds1, none))
    (hrow : (ds1.taxii_status.getD []).find? (fun r => r.ID == st.ID) = some row) :
    created.Invariant ∧ row.Invariant ∧
      row.TotalCount = st.TotalCount ∧ row.SuccessCount = st.SuccessCount ∧
      row.FailureCount = st.FailureCount := by
  refine ⟨NewStatus_invariant objects id created hnew, ?_⟩
  unfold Sqlite.StatusService.UpdateStatus at hupd
  cases hrows : ds.taxii_status with
  | none => simp [hrows] at hupd
  | some rows =>
    simp only [hrows, Prod.mk.injEq, and_true] at hupd
    subst hupd
    simp only [Option.getD_some] at hrow
    have hrec := find_map_update rows st.ID
      { st with
        PendingCount := st.TotalCount - st.SuccessCount - st.FailureCount,
        Status := if st.TotalCount - st.SuccessCount - st.FailureCount = 0 then "complete"
          else "pending" } row rfl hrow
    subst hrec
    refine ⟨⟨rfl, ?_, ?_⟩, rfl, rfl, rfl⟩
    · simp only
      split
      · simp [*]
      · simp [*]
    · simp only
      intro hp
      simp [hp]

/-- Witness for C2: `NewStatus(3)`, and the update of `TestStatusServiceUpdateStatus` that
completes a three-object status although the caller passes label `pending` and
`PendingCount` 2. -/
theorem C2_status_invariant_witness :
    (Status.mk "s1" "pending" 3 0 0 3).Invariant ∧ (Status.mk "s1" "complete" 3 2 1 0).Invariant ∧
      (Status.mk "s1" "complete" 3 2 1 0).TotalCount = 3 ∧
      (Status.mk "s1" "complete" 3 2 1 0).SuccessCount = 2 ∧
      (Status.mk "s1" "complete" 3 2 1 0).FailureCount = 1 :=
  C2_status_invariant 3 "s1" (Status.mk "s1" "pending" 3 0 0 3)
    { taxii_status := some [Status.mk "s0" "pending" 1 0 0 1, Status.mk "s1" "pending" 3 0 1 2] }
    { taxii_status := some [Status.mk "s0" "pending" 1 0 0 1, Status.mk "s1" "complete" 3 2 1 0] }
    (Status.mk "s1" "pending" 3 2 1 2) (Status.mk "s1" "complete" 3 2 1 0)
    (by decide) (by decide) (by decide)

/-! ## `ObjectsHandler.Post` -/

theorem validPost_cases (lib : Lib) (h : ObjectsHandler) (r : Request) :
    (r.Header "Accept" ≠ TaxiiContentType ∧
      h.validPost lib r = (false, unsupportedMediaType
        ("Invalid '" ++ "Accept" ++ "' Header: " ++ r.Header "Accept"))) ∨
    (r.Header "Accept" = TaxiiContentType ∧ r.Header "Content-Type" ≠ StixContentType ∧
      h.validPost lib r = (false, unsupportedMediaType
        ("Invalid '" ++ "Content-Type" ++ "' Header: " ++ r.Header "Content-Type"))) ∨
    (r.Header "Accept" = TaxiiContentType ∧ r.Header "Content-Type" = StixContentType ∧
      r.ContentLength > h.MaxContentLength ∧
      h.validPost lib r = (false, requestTooLarge r.ContentLength h.MaxContentLength)) ∨
    (r.Header "Accept" = TaxiiContentType ∧ r.Header "Content-Type" = StixContentType ∧
      ¬ r.ContentLength > h.MaxContentLength ∧ (takeCollectionAccess lib r).CanWrite = false ∧
      h.validPost lib r = (false, forbidden "Unauthorized to write to collection")) ∨
    (r.Header "Accept" = TaxiiContentType ∧ r.Header "Content-Type" = StixContentType ∧
      ¬ r.ContentLength > h.MaxContentLength ∧ (takeCollectionAccess lib r).CanWrite = true ∧
      h.validPost lib r = (true, [])) := by
  by_cases ha : r.Header "Accept" = TaxiiContentType
  · by_cases hc : r.Header "Content-Type" = StixContentType
    · by_cases hl : r.ContentLength > h.MaxContentLength
      · right; right; left
        simp [ObjectsHandler.validPost, verifySupportedMimeType, greaterThan, ha, hc, hl]
      · by_cases hw : (takeCollectionAccess lib r).CanWrite = true
        · right; right; right; right
          simp [ObjectsHandler.validPost, verifySupportedMimeType, greaterThan, ha, hc, hl, hw]
        · right; right; right; left
          simp only [Bool.not_eq_true] at hw
          simp [ObjectsHandler.validPost, verifySupportedMimeType, greaterThan, ha, hc, hl, hw]
    · right; left
      simp [ObjectsHandler.validPost, verifySupportedMimeType, ha, hc]
  · left
    simp [ObjectsHandler.validPost, verifySupportedMimeType, ha]

theorem Post_of_invalid (lib : Lib) (h : ObjectsHandler) (r : Request) (ev : List Event)
    (hv : h.validPost lib r = (false, ev)) : h.Post lib r = ev := by
  simp [ObjectsHandler.Post, hv]

theorem Post_valid_cases (lib : Lib) (h : ObjectsHandler) (r : Request)
    (hv : h.validPost lib r = (true, [])) :
    (∃ err, (r.Body.2 = some err ∨
        (r.Body.2 = none ∧ (bundleFromBytes lib r.Body.1).2 = some err)) ∧
      h.Post lib r = badRequest err) ∨
    (∃ bundle, r.Body.2 = none ∧ bundleFromBytes lib r.Body.1 = (bundle, none) ∧
      (NewStatus (bundle.Objects.length : Nat) lib.NewID).2 ≠ none ∧
      h.Post lib r = internalServerError "Unable to initialize status resource") ∨
    (∃ bundle st e, r.Body.2 = none ∧ bundleFromBytes lib r.Body.1 = (bundle, none) ∧
      NewStatus (bundle.Objects.length : Nat) lib.NewID = (st, none) ∧
      h.StatusService.CreateStatus st = some e ∧
      h.Post lib r =
        Event.createStatus st :: internalServerError "Unable to store status resource") ∨
    (∃ bundle st, r.Body.2 = none ∧ bundleFromBytes lib r.Body.1 = (bundle, none) ∧
      NewStatus (bundle.Objects.length : Nat) lib.NewID = (st, none) ∧
      h.StatusService.CreateStatus st = none ∧
      h.Post lib r = acceptedTrace bundle (takeCollectionID r) st) := by
  rcases hb : r.Body with ⟨body, berr⟩
  cases berr with
  | some err =>
    left
    exact ⟨err, Or.inl rfl, by simp [ObjectsHandler.Post, hv, hb, badRequest]⟩
  | none =>
    rcases hd : bundleFromBytes lib body with ⟨bundle, derr⟩
    cases derr with
    | some err =>
      left
      exact ⟨err, Or.inr ⟨rfl, by simp [hd]⟩, by simp [ObjectsHandler.Post, hv, hb, hd]⟩
    | none =>
      right
      rcases hn : NewStatus (bundle.Objects.length : Nat) lib.NewID with ⟨st, nerr⟩
      cases nerr with
      | some err =>
        left
        exact ⟨bundle, rfl, rfl, by simp [hn], by simp [ObjectsHandler.Post, hv, hb, hd, hn]⟩
      | none =>
        right
        cases hc : h.StatusService.CreateStatus st with
        | some e =>
          left
          exact ⟨bundle, st, e, rfl, rfl, hn, hc,
            by simp [ObjectsHandler.Post, hv, hb, hd, hn, hc]⟩
        | none =>
          right
          exact ⟨bundle, st, rfl, rfl, hn, hc,
            by simp [ObjectsHandler.Post, hv, hb, hd, hn, hc, acceptedTrace, writeContent]⟩

theorem statusCode_errorStatus (title err : String) (status : Nat) :
    statusCode (errorStatus title err status) = status ∧
      responseBody (errorStatus title err status) =
        [Resource.error { Title := title, Description := err, HTTPStatus := status }] ∧
      createdStatuses (errorStatus title err status) = [] ∧
      launchedBundles (errorStatus title err status) = 0 := by
  simp [errorStatus, statusCode, responseBody, createdStatuses, launchedBundles]

theorem acceptedTrace_spec (bundle : Bundle) (cid : String) (st : Status) :
    statusCode (acceptedTrace bundle cid st) = 202 ∧
      responseBody (acceptedTrace bundle cid st) = [Resource.status st] ∧
      createdStatuses (acceptedTrace bundle cid st) = [st] ∧
      launchedBundles (acceptedTrace bundle cid st) = 1 := by
  simp [acceptedTrace, statusCode, responseBody, createdStatuses, launchedBundles]

/-- Every run of `Post` is one of eight traces. -/
theorem Post_cases (lib : Lib) (h : ObjectsHandler) (r : Request) :
    (∃ title err code, h.Post lib r = errorStatus title err code ∧
      (code = 415 ∨ code = 413 ∨ code = 403) ∧ (h.validPost lib r).1 = false) ∨
    (h.validPost lib r = (true, []) ∧
      ((∃ err, (r.Body.2 = some err ∨
          (r.Body.2 = none ∧ (bundleFromBytes lib r.Body.1).2 = some err)) ∧
        h.Post lib r = errorStatus "Bad Request" err 400) ∨
      (∃ bundle, r.Body.2 = none ∧ bundleFromBytes lib r.Body.1 = (bundle, none) ∧
        (NewStatus (bundle.Objects.length : Nat) lib.NewID).2 ≠ none ∧
        h.Post lib r =
          errorStatus "Internal Server Error" "Unable to initialize status resource" 500) ∨
      (∃ bundle st e, r.Body.2 = none ∧ bundleFromBytes lib r.Body.1 = (bundle, none) ∧
        NewStatus (bundle.Objects.length : Nat) lib.NewID = (st, none) ∧
        h.StatusService.CreateStatus st = some e ∧
        h.Post lib r = Event.createStatus st ::
          errorStatus "Internal Server Error" "Unable to store status resource" 500) ∨
      (∃ bundle st, r.Body.2 = none ∧ bundleFromBytes lib r.Body.1 = (bundle, none) ∧
        NewStatus (bundle.Objects.length : Nat) lib.NewID = (st, none) ∧
        h.StatusService.CreateStatus st = none ∧
        h.Post lib r = acceptedTrace bundle (takeCollectionID r) st))) := by
  rcases validPost_cases lib h r with ⟨_, hv⟩ | ⟨_, _, hv⟩ | ⟨_, _, _, hv⟩ | ⟨_, _, _, _, hv⟩ |
    ⟨_, _, _, _, hv⟩
  · exact Or.inl ⟨_, _, 415, Post_of_invalid lib h r _ hv, by simp, by simp [hv]⟩
  · exact Or.inl ⟨_, _, 415, Post_of_invalid lib h r _ hv, by simp, by simp [hv]⟩
  · exact Or.inl ⟨_, _, 413, Post_of_invalid lib h r _ hv, by simp, by simp [hv]⟩
  · exact Or.inl ⟨_, _, 403, Post_of_invalid lib h r _ hv, by simp, by simp [hv]⟩
  · exact Or.inr ⟨hv, Post_valid_cases lib h r hv⟩

theorem validPost_pass (lib : Lib) (h : ObjectsHandler) (r : Request)
    (ha : r.Header "Accept" = TaxiiContentType)
    (hc : r.Header "Content-Type" = StixContentType)
    (hl : ¬ r.ContentLength > h.MaxContentLength)
    (hw : (takeCollectionAccess lib r).CanWrite = true) :
    h.validPost lib r = (true, []) := by
  simp [ObjectsHandler.validPost, verifySupportedMimeType, greaterThan, ha, hc, hl, hw]

theorem validPost_pass_iff (lib : Lib) (h : ObjectsHandler) (r : Request) :
    h.validPost lib r = (true, []) ↔
      (r.Header "Accept" = TaxiiContentType ∧ r.Header "Content-Type" = StixContentType ∧
        ¬ r.ContentLength > h.MaxContentLength ∧ (takeCollectionAccess lib r).CanWrite = true) := by
  constructor
  · intro hv
    rcases validPost_cases lib h r with ⟨_, hv2⟩ | ⟨_, _, hv2⟩ | ⟨_, _, _, hv2⟩ |
      ⟨_, _, _, _, hv2⟩ | ⟨h1, h2, h3, h4, _⟩
    · rw [hv] at hv2; simp at hv2
    · rw [hv] at hv2; simp at hv2
    · rw [hv] at hv2; simp at hv2
    · rw [hv] at hv2; simp at hv2
    · exact ⟨h1, h2, h3, h4⟩
  · rintro ⟨h1, h2, h3, h4⟩
    exact validPost_pass lib h r h1 h2 h3 h4

/-- Claim C3: when `Post` rejects a request during validation or decoding (unsupported
`Accept` or `Content-Type`, content length over the maximum, no write capability, unreadable
body, undecodable or invalid bundle), `StatusService.CreateStatus` is not called,
`ObjectService.CreateBundle` is not launched, and the response is a 4xx client error. -/
theorem C3_rejection_before_mutation (lib : Lib) (h : ObjectsHandler) (r : Request)
    (hrej : r.Header "Accept" ≠ TaxiiContentType ∨ r.Header "Content-Type" ≠ StixContentType ∨
      r.ContentLength > h.MaxContentLength ∨ (takeCollectionAccess lib r).CanWrite = false ∨
      r.Body.2 ≠ none ∨ (bundleFromBytes lib r.Body.1).2 ≠ none) :
    createdStatuses (h.Post lib r) = [] ∧ launchedBundles (h.Post lib r) = 0 ∧
      statusCode (h.Post lib r) ∈ [415, 413, 403, 400] := by
  rcases Post_cases lib h r with ⟨t, e, c, hp, hc, _⟩ | ⟨hv, hrest⟩
  · rw [hp]
    obtain ⟨h1, _, h3, h4⟩ := statusCode_errorStatus t e c
    refine ⟨h3, h4, ?_⟩
    rw [h1]
    rcases hc with rfl | rfl | rfl <;> simp
  · obtain ⟨h1, h2, h3, h4⟩ := (validPost_pass_iff lib h r).mp hv
    have hdec : r.Body.2 ≠ none ∨ (bundleFromBytes lib r.Body.1).2 ≠ none := by
      rcases hrej with hx | hx | hx | hx | hx | hx
      · exact absurd h1 hx
      · exact absurd h2 hx
      · exact absurd hx h3
      · rw [h4] at hx; simp at hx
      · exact Or.inl hx
      · exact Or.inr hx
    rcases hrest with ⟨err, _, hp⟩ | ⟨b, hb, hd, _, _⟩ | ⟨b, st, e, hb, hd, _⟩ |
      ⟨b, st, hb, hd, _⟩
    · rw [hp]
      obtain ⟨s1, _, s3, s4⟩ := statusCode_errorStatus "Bad Request" err 400
      exact ⟨s3, s4, by rw [s1]; simp⟩
    · rcases hdec with hx | hx
      · exact absurd hb hx
      · rw [hd] at hx; simp at hx
    · rcases hdec with hx | hx
      · exact absurd hb hx
      · rw [hd] at hx; simp at hx
    · rcases hdec with hx | hx
      · exact absurd hb hx
      · rw [hd] at hx; simp at hx

/-- Claim C5: with acceptable `Accept` and `Content-Type` headers and a content length within
the maximum, a request whose resolved `CollectionAccess` has `CanWrite = false` is answered
403 Forbidden, and `CreateStatus` is not called (nor `CreateBundle` launched). -/
theorem C5_forbidden_write (lib : Lib) (h : ObjectsHandler) (r : Request)
    (ha : r.Header "Accept" = TaxiiContentType)
    (hc : r.Header "Content-Type" = StixContentType)
    (hl : ¬ r.ContentLength > h.MaxContentLength)
    (hw : (takeCollectionAccess lib r).CanWrite = false) :
    statusCode (h.Post lib r) = 403 ∧
      responseBody (h.Post lib r) = [Resource.error
        { Title := "Forbidden", Description := "Unauthorized to write to collection",
          HTTPStatus := 403 }] ∧
      createdStatuses (h.Post lib r) = [] ∧ launchedBundles (h.Post lib r) = 0 := by
  have hv : h.validPost lib r = (false, forbidden "Unauthorized to write to collection") := by
    simp [ObjectsHandler.validPost, verifySupportedMimeType, greaterThan, ha, hc, hl, hw]
  rw [Post_of_invalid lib h r _ hv]
  exact statusCode_errorStatus "Forbidden" "Unauthorized to write to collection" 403

/-- Claim C6: when `Post` answers 202, its effects are, in this order: the call of
`StatusService.CreateStatus`, the writes of the 202 response carrying that status, and last
the `go` statement starting `ObjectService.CreateBundle`; nothing precedes the call of
`CreateStatus` and nothing follows the launch. -/
theorem C6_accept_order (lib : Lib) (h : ObjectsHandler) (r : Request)
    (hacc : statusCode (h.Post lib r) = 202) :
    ∃ bundle st, h.Post lib r =
      [Event.createStatus st,
       Event.setHeader "Content-Type" TaxiiContentType,
       Event.writeHeader 202,
       Event.setHeader "Content-Type" TaxiiContentType,
       Event.writeString (Resource.status st),
       Event.goCreateBundle bundle (takeCollectionID r) st] := by
  rcases Post_cases lib h r with ⟨t, e, c, hp, hc, _⟩ | ⟨hv, hrest⟩
  · rw [hp, (statusCode_errorStatus t e c).1] at hacc
    omega
  · rcases hrest with ⟨err, _, hp⟩ | ⟨b, _, _, _, hp⟩ | ⟨b, st, e, _, _, _, _, hp⟩ |
      ⟨b, st, _, _, _, _, hp⟩
    · rw [hp, (statusCode_errorStatus _ _ _).1] at hacc
      omega
    · rw [hp, (statusCode_errorStatus _ _ _).1] at hacc
      omega
    · rw [hp] at hacc
      simp [statusCode, errorStatus] at hacc
    · exact ⟨b, st, hp⟩

/-- Witness for C3: the POST of a user without an access entry is rejected with 403 and
leaves no effect on the ledger or the object store. -/
theorem C3_rejection_before_mutation_witness :
    createdStatuses (testHandler.Post testLib testPostNoAccess) = [] ∧
      launchedBundles (testHandler.Post testLib testPostNoAccess) = 0 ∧
      statusCode (testHandler.Post testLib testPostNoAccess) ∈ [415, 413, 403, 400] :=
  C3_rejection_before_mutation testLib testHandler testPostNoAccess
    (Or.inr (Or.inr (Or.inr (Or.inl (by decide)))))

/-- Witness for C5: the access list of the user has no entry for the collection. -/
theorem C5_forbidden_write_witness :
    testPostNoAccess.UserCollectionList = some [] ∧
      statusCode (testHandler.Post testLib testPostNoAccess) = 403 ∧
      responseBody (testHandler.Post testLib testPostNoAccess) = [Resource.error
        { Title := "Forbidden", Description := "Unauthorized to write to collection",
          HTTPStatus := 403 }] ∧
      createdStatuses (testHandler.Post testLib testPostNoAccess) = [] ∧
      launchedBundles (testHandler.Post testLib testPostNoAccess) = 0 :=
  ⟨rfl, C5_forbidden_write testLib testHandler testPostNoAccess (by decide) (by decide)
    (by decide) (by decide)⟩

/-- Witness for C6: the POST of `TestObjectsHandlerPost` is accepted. -/
theorem C6_accept_order_witness :
    ∃ bundle st, testHandler.Post testLib testPost =
      [Event.createStatus st,
       Event.setHeader "Content-Type" TaxiiContentType,
       Event.writeHeader 202,
       Event.setHeader "Content-Type" TaxiiContentType,
       Event.writeString (Resource.status st),
       Event.goCreateBundle bundle (takeCollectionID testPost) st] :=
  C6_accept_order testLib testHandler testPost (by decide)

/-- Claim C4, as amended: a POST that passes the header, size and write-access checks and
whose body decodes to a bundle with an empty objects list is never answered 202 and creates
no status: it is answered 400 Bad Request when bundle validation rejects the bundle, and
500 (`Unable to initialize status resource`) when validation accepts it, since `Post` itself
does not look at the number of objects before `NewStatus`. -/
theorem C4_empty_bundle_response (lib : Lib) (h : ObjectsHandler) (r : Request)
    (body : String) (bundle : Bundle)
    (ha : r.Header "Accept" = TaxiiContentType)
    (hc : r.Header "Content-Type" = StixContentType)
    (hl : ¬ r.ContentLength > h.MaxContentLength)
    (hw : (takeCollectionAccess lib r).CanWrite = true)
    (hb : r.Body = (body, none))
    (hu : lib.Unmarshal body = (bundle, none))
    (hempty : bundle.Objects = []) :
    ((lib.Validate bundle).1 = false →
      statusCode (h.Post lib r) = 400 ∧
      ∃ err, responseBody (h.Post lib r) = [Resource.error
        { Title := "Bad Request", Description := err, HTTPStatus := 400 }]) ∧
    ((lib.Validate bundle).1 = true →
      statusCode (h.Post lib r) = 500 ∧
      responseBody (h.Post lib r) = [Resource.error
        { Title := "Internal Server Error",
          Description := "Unable to initialize status resource", HTTPStatus := 500 }]) ∧
    statusCode (h.Post lib r) ≠ 202 ∧
    createdStatuses (h.Post lib r) = [] ∧ launchedBundles (h.Post lib r) = 0 := by
  have hv := validPost_pass lib h r ha hc hl hw
  rcases hval : lib.Validate bundle with ⟨ok, errs⟩
  cases ok with
  | false =>
    have hd : bundleFromBytes lib body = (bundle, some (lib.Errorf
        (errs.foldl (fun acc e => acc ++ ("\nValidation Error: " ++ e))
          "Invalid bundle:"))) := by
      simp [bundleFromBytes, hu, hval]
    have hp : h.Post lib r = badRequest (lib.Errorf
        (errs.foldl (fun acc e => acc ++ ("\nValidation Error: " ++ e))
          "Invalid bundle:")) := by
      simp [ObjectsHandler.Post, hv, hb, hd]
    rw [hp]
    obtain ⟨s1, s2, s3, s4⟩ := statusCode_errorStatus "Bad Request" (lib.Errorf
        (errs.foldl (fun acc e => acc ++ ("\nValidation Error: " ++ e))
          "Invalid bundle:")) 400
    refine ⟨fun _ => ⟨s1, ⟨_, s2⟩⟩, fun hok => by simp at hok, ?_, s3, s4⟩
    rw [badRequest, s1]
    decide
  | true =>
    have hd : bundleFromBytes lib body = (bundle, none) := by
      simp [bundleFromBytes, hu, hval]
    have hp : h.Post lib r =
        internalServerError "Unable to initialize status resource" := by
      simp [ObjectsHandler.Post, hv, hb, hd, hempty, NewStatus]
    rw [hp]
    obtain ⟨s1, s2, s3, s4⟩ := statusCode_errorStatus "Internal Server Error"
      "Unable to initialize status resource" 500
    refine ⟨fun hbad => by simp at hbad, fun _ => ⟨s1, s2⟩, ?_, s3, s4⟩
    rw [internalServerError, s1]
    decide

/-- Witness for C4: the POST of `TestObjectsHandlerPostEmptyBundle`, with a validator that
rejects a bundle without objects. -/
theorem C4_empty_bundle_response_witness :
    statusCode (testHandler.Post testLib testPostEmpty) = 400 ∧
      statusCode (testHandler.Post testLib testPostEmpty) ≠ 202 ∧
      createdStatuses (testHandler.Post testLib testPostEmpty) = [] ∧
      launchedBundles (testHandler.Post testLib testPostEmpty) = 0 :=
  ⟨((C4_empty_bundle_response testLib testHandler testPostEmpty "empty_bundle.json"
      testEmptyBundle (by decide) (by decide) (by decide) (by decide) rfl (by decide)
      rfl).1 (by decide)).1,
   (C4_empty_bundle_response testLib testHandler testPostEmpty "empty_bundle.json"
      testEmptyBundle (by decide) (by decide) (by decide) (by decide) rfl (by decide)
      rfl).2.2⟩

/-- Counterexample to C4 as stated: the POST passes the header, size and write-access checks
and its body decodes to a bundle with an empty objects list; with a validator that accepts
the bundle, `Post` answers 500, not 400. -/
theorem C4_counterexample :
    testPostEmpty.Header "Accept" = TaxiiContentType ∧
      testPostEmpty.Header "Content-Type" = StixContentType ∧
      ¬ testPostEmpty.ContentLength > testHandler.MaxContentLength ∧
      (takeCollectionAccess testLibLenient testPostEmpty).CanWrite = true ∧
      testPostEmpty.Body = ("empty_bundle.json", none) ∧
      testLibLenient.Unmarshal "empty_bundle.json" = (testEmptyBundle, none) ∧
      testEmptyBundle.Objects = [] ∧
      statusCode (testHandler.Post testLibLenient testPostEmpty) = 500 ∧
      statusCode (testHandler.Post testLibLenient testPostEmpty) ≠ 400 := by
  decide

/-- The 500 branch of an empty bundle on its own: were a bundle without objects to pass
validation, `Post` would fail in `NewStatus` and answer 500, still without calling
`CreateStatus`. -/
theorem Post_empty_bundle_validated (lib : Lib) (h : ObjectsHandler) (r : Request)
    (body : String) (bundle : Bundle) (errs : List String)
    (hv : h.validPost lib r = (true, []))
    (hb : r.Body = (body, none))
    (hu : lib.Unmarshal body = (bundle, none))
    (hempty : bundle.Objects = [])
    (hval : lib.Validate bundle = (true, errs)) :
    statusCode (h.Post lib r) = 500 ∧ createdStatuses (h.Post lib r) = [] ∧
      launchedBundles (h.Post lib r) = 0 := by
  have hd : bundleFromBytes lib body = (bundle, none) := by
    simp [bundleFromBytes, hu, hval]
  have hp : h.Post lib r =
      internalServerError "Unable to initialize status resource" := by
    simp [ObjectsHandler.Post, hv, hb, hd, hempty, NewStatus]
  rw [hp]
  obtain ⟨s1, _, s3, s4⟩ := statusCode_errorStatus "Internal Server Error"
    "Unable to initialize status resource" 500
  exact ⟨s1, s3, s4⟩

/-- Claim C7, as amended: for a bundle of `n >= 1` objects that decodes and validates,
submitted with acceptable headers and size by a user with write capability, and provided
`StatusService.CreateStatus` returns no error for it, `Post` answers 202 with a status body
that is `pending` with `total_count = n`, `pending_count = n`, `success_count = 0` and
`failure_count = 0`, and that same status is the one handed to `CreateStatus`. -/
theorem C7_accepted_status (lib : Lib) (h : ObjectsHandler) (r : Request)
    (body : String) (bundle : Bundle) (errs : List String)
    (ha : r.Header "Accept" = TaxiiContentType)
    (hc : r.Header "Content-Type" = StixContentType)
    (hl : ¬ r.ContentLength > h.MaxContentLength)
    (hw : (takeCollectionAccess lib r).CanWrite = true)
    (hb : r.Body = (body, none))
    (hu : lib.Unmarshal body = (bundle, none))
    (hval : lib.Validate bundle = (true, errs))
    (hn : 1 ≤ bundle.Objects.length)
    (hstore : h.StatusService.CreateStatus
      { ID := lib.NewID, Status := "pending", TotalCount := (bundle.Objects.length : Nat),
        SuccessCount := 0, FailureCount := 0,
        PendingCount := (bundle.Objects.length : Nat) } = none) :
    statusCode (h.Post lib r) = 202 ∧
      responseBody (h.Post lib r) = [Resource.status
        { ID := lib.NewID, Status := "pending", TotalCount := (bundle.Objects.length : Nat),
          SuccessCount := 0, FailureCount := 0,
          PendingCount := (bundle.Objects.length : Nat) }] ∧
      createdStatuses (h.Post lib r) =
        [{ ID := lib.NewID, Status := "pending", TotalCount := (bundle.Objects.length : Nat),
           SuccessCount := 0, FailureCount := 0,
           PendingCount := (bundle.Objects.length : Nat) }] := by
  have hv := validPost_pass lib h r ha hc hl hw
  have hd : bundleFromBytes lib body = (bundle, none) := by
    simp [bundleFromBytes, hu, hval]
  have hlt : ¬ ((bundle.Objects.length : Nat) : Int) < 1 := by omega
  have hnew : NewStatus ((bundle.Objects.length : Nat) : Int) lib.NewID =
      ({ ID := lib.NewID, Status := "pending", TotalCount := (bundle.Objects.length : Nat),
         SuccessCount := 0, FailureCount := 0,
         PendingCount := (bundle.Objects.length : Nat) }, none) := by
    simp [NewStatus, hlt]
  have hp : h.Post lib r = acceptedTrace bundle (takeCollectionID r)
      { ID := lib.NewID, Status := "pending", TotalCount := (bundle.Objects.length : Nat),
        SuccessCount := 0, FailureCount := 0,
        PendingCount := (bundle.Objects.length : Nat) } := by
    simp [ObjectsHandler.Post, hv, hb, hd, hnew, hstore, acceptedTrace, writeContent]
  rw [hp]
  obtain ⟨s1, s2, s3, _⟩ := acceptedTrace_spec bundle (takeCollectionID r)
    { ID := lib.NewID, Status := "pending", TotalCount := (bundle.Objects.length : Nat),
      SuccessCount := 0, FailureCount := 0, PendingCount := (bundle.Objects.length : Nat) }
  exact ⟨s1, s2, s3⟩

/-- Witness for C7: the three-object POST of `TestObjectsHandlerPost`. -/
theorem C7_accepted_status_witness :
    statusCode (testHandler.Post testLib testPost) = 202 ∧
      responseBody (testHandler.Post testLib testPost) = [Resource.status
        { ID := testLib.NewID, Status := "pending", TotalCount := 3, SuccessCount := 0,
          FailureCount := 0, PendingCount := 3 }] ∧
      createdStatuses (testHandler.Post testLib testPost) =
        [{ ID := testLib.NewID, Status := "pending", TotalCount := 3, SuccessCount := 0,
           FailureCount := 0, PendingCount := 3 }] :=
  C7_accepted_status testLib testHandler testPost "malware_bundle.json" testBundle []
    (by decide) (by decide) (by decide) (by decide) rfl (by decide) (by decide) (by decide)
    rfl

/-- Counterexample to C7 as stated: the valid three-object bundle of `TestObjectsPostStatusFail`
is submitted with acceptable headers and size by a user with write capability, the status
service fails to store the status, and `Post` answers 500, not 202. -/
theorem C7_counterexample :
    testPost.Header "Accept" = TaxiiContentType ∧
      testPost.Header "Content-Type" = StixContentType ∧
      ¬ testPost.ContentLength > testHandlerStatusFail.MaxContentLength ∧
      (takeCollectionAccess testLib testPost).CanWrite = true ∧
      testPost.Body = ("malware_bundle.json", none) ∧
      testLib.Unmarshal "malware_bundle.json" = (testBundle, none) ∧
      testLib.Validate testBundle = (true, []) ∧
      testBundle.Objects.length = 3 ∧
      statusCode (testHandlerStatusFail.Post testLib testPost) = 500 ∧
      statusCode (testHandlerStatusFail.Post testLib testPost) ≠ 202 := by
  decide

/-- Claim C8: when `Post` gets as far as calling `StatusService.CreateStatus` (the request
passed validation and decoding) and that call returns an error, the response is 500 with
title `Internal Server Error` and description `Unable to store status resource`, and
`ObjectService.CreateBundle` is not launched. -/
theorem C8_status_store_failure (lib : Lib) (h : ObjectsHandler) (r : Request)
    (st : Status) (e : String)
    (hcall : st ∈ createdStatuses (h.Post lib r))
    (hfail : h.StatusService.CreateStatus st = some e) :
    statusCode (h.Post lib r) = 500 ∧
      responseBody (h.Post lib r) = [Resource.error
        { Title := "Internal Server Error", Description := "Unable to store status resource",
          HTTPStatus := 500 }] ∧
      launchedBundles (h.Post lib r) = 0 ∧
      (h.validPost lib r).1 = true ∧ r.Body.2 = none ∧
      (bundleFromBytes lib r.Body.1).2 = none := by
  rcases Post_cases lib h r with ⟨t, e1, c, hp, _, _⟩ | ⟨hv, hrest⟩
  · rw [hp, (statusCode_errorStatus t e1 c).2.2.1] at hcall
    simp at hcall
  · rcases hrest with ⟨err, _, hp⟩ | ⟨b, _, _, _, hp⟩ | ⟨b, st1, e1, hb, hd, _, _, hp⟩ |
      ⟨b, st1, _, _, _, hc, hp⟩
    · rw [hp, (statusCode_errorStatus _ _ _).2.2.1] at hcall
      simp at hcall
    · rw [hp, (statusCode_errorStatus _ _ _).2.2.1] at hcall
      simp at hcall
    · rw [hp]
      refine ⟨?_, ?_, ?_, by simp [hv], hb, by simp [hd]⟩
      · simp [statusCode, errorStatus]
      · simp [responseBody, errorStatus]
      · simp [launchedBundles, errorStatus]
    · rw [hp, (acceptedTrace_spec _ _ _).2.2.1] at hcall
      simp only [List.mem_singleton] at hcall
      subst hcall
      rw [hc] at hfail
      simp at hfail

/-- Witness for C8: the POST of `TestObjectsPostStatusFail`. -/
theorem C8_status_store_failure_witness :
    statusCode (testHandlerStatusFail.Post testLib testPost) = 500 ∧
      responseBody (testHandlerStatusFail.Post testLib testPost) = [Resource.error
        { Title := "Internal Server Error", Description := "Unable to store status resource",
          HTTPStatus := 500 }] ∧
      launchedBundles (testHandlerStatusFail.Post testLib testPost) = 0 ∧
      (testHandlerStatusFail.validPost testLib testPost).1 = true ∧
      testPost.Body.2 = none ∧ (bundleFromBytes testLib testPost.Body.1).2 = none :=
  C8_status_store_failure testLib testHandlerStatusFail testPost
    { ID := testLib.NewID, Status := "pending", TotalCount := 3, SuccessCount := 0,
      FailureCount := 0, PendingCount := 3 } "fail" (by decide) rfl

theorem greaterThan_iff (r m : Int) : greaterThan r m = true ↔ r > m := by
  unfold greaterThan
  split <;> simp [*]

/-- Claim C9: with acceptable `Accept` and `Content-Type` headers, `Post` answers 413 if and
only if the request's content length is strictly greater than `MaxContentLength` (a content
length equal to the maximum is not rejected for size), and `greaterThan(r, m)` is true
exactly when `r > m`. -/
theorem C9_too_large_iff (lib : Lib) (h : ObjectsHandler) (r : Request)
    (ha : r.Header "Accept" = TaxiiContentType)
    (hc : r.Header "Content-Type" = StixContentType) :
    (statusCode (h.Post lib r) = 413 ↔ r.ContentLength > h.MaxContentLength) ∧
      (r.ContentLength = h.MaxContentLength → statusCode (h.Post lib r) ≠ 413) ∧
      (∀ a m : Int, greaterThan a m = true ↔ a > m) := by
  have key : statusCode (h.Post lib r) = 413 ↔ r.ContentLength > h.MaxContentLength := by
    constructor
    · intro hs
      by_contra hl
      rcases validPost_cases lib h r with ⟨h1, _⟩ | ⟨_, h2, _⟩ | ⟨_, _, h3, _⟩ |
        ⟨_, _, _, _, hv⟩ | ⟨_, _, _, _, hv⟩
      · exact h1 ha
      · exact h2 hc
      · exact hl h3
      · rw [Post_of_invalid lib h r _ hv, forbidden, (statusCode_errorStatus _ _ _).1] at hs
        omega
      · rcases Post_valid_cases lib h r hv with ⟨err, _, hp⟩ | ⟨b, _, _, _, hp⟩ |
          ⟨b, st, e, _, _, _, _, hp⟩ | ⟨b, st, _, _, _, _, hp⟩
        · rw [hp, badRequest, (statusCode_errorStatus _ _ _).1] at hs
          omega
        · rw [hp, internalServerError, (statusCode_errorStatus _ _ _).1] at hs
          omega
        · rw [hp] at hs
          simp [statusCode, internalServerError, errorStatus] at hs
        · rw [hp, (acceptedTrace_spec _ _ _).1] at hs
          omega
    · intro hl
      have hv : h.validPost lib r =
          (false, requestTooLarge r.ContentLength h.MaxContentLength) := by
        simp [ObjectsHandler.validPost, verifySupportedMimeType, greaterThan, ha, hc, hl]
      rw [Post_of_invalid lib h r _ hv, requestTooLarge, (statusCode_errorStatus _ _ _).1]
  refine ⟨key, ?_, greaterThan_iff⟩
  intro heq hs
  have := key.mp hs
  omega

/-- Witness for C9: the three-object POST, whose content length 1024 is below the maximum of
2048, is not answered 413. -/
theorem C9_too_large_iff_witness :
    (statusCode (testHandler.Post testLib testPost) = 413 ↔
        testPost.ContentLength > testHandler.MaxContentLength) ∧
      (testPost.ContentLength = testHandler.MaxContentLength →
        statusCode (testHandler.Post testLib testPost) ≠ 413) ∧
      (∀ a m : Int, greaterThan a m = true ↔ a > m) :=
  C9_too_large_iff testLib testHandler testPost (by decide) (by decide)

/-! ## `ObjectsHandler.getObjects` -/

theorem objectsToBundle_ok (lib : Lib) (objects : List Object)
    (hfresh : lib.NewBundle.2 = none) (hne : 1 ≤ objects.length) :
    objectsToBundle lib objects =
      ({ lib.NewBundle.1 with
         Objects := lib.NewBundle.1.Objects ++ objects.map (fun o => o.Object) }, none) := by
  rcases hnb : lib.NewBundle with ⟨fresh, err⟩
  rw [hnb] at hfresh
  simp only at hfresh
  subst hfresh
  have hlen : ¬ (fresh.Objects ++ objects.map (fun o => o.Object)).length = 0 := by
    simp only [List.length_append, List.length_map]
    omega
  simp only [objectsToBundle, hnb, hlen, if_false]

theorem objectsToBundle_fail (lib : Lib) (objects : List Object)
    (hfresh : lib.NewBundle.2 ≠ none) : (objectsToBundle lib objects).2 ≠ none := by
  rcases hnb : lib.NewBundle with ⟨fresh, err⟩
  rw [hnb] at hfresh
  cases err with
  | none => simp at hfresh
  | some e => simp [objectsToBundle, hnb]

theorem Range_Valid_iff (r : Range) : r.Valid = true ↔ (0 ≤ r.First ∧ r.First ≤ r.Last) := by
  simp [Range.Valid]

theorem Range_Valid_total (r : Range) (total : Int) :
    ({ r with Total := total } : Range).Valid = r.Valid := rfl

/-- Claim C10, as amended: for a list request whose storage query succeeds with at least one
object, `getObjects` answers 416 if `NewRange` returns an error for the `Range` header; and,
provided the response bundle can be created (`stones.NewBundle` returns no error), 206 if
the range is valid (`First >= 0` and `Last >= First`) as the storage collaborator left it
behind the pointer it was handed, and 200 with the full result set if it is not. When the
collaborator leaves `First` and `Last` as parsed, that is 206 for a valid parsed range and
200 for an absent header or a parsed range that is not valid. When the header parses and
`stones.NewBundle` fails the answer is 500. -/
theorem C10_list_status (lib : Lib) (h : ObjectsHandler) (r : Request)
    (objects : List Object) (cr : Range)
    (hq : h.ObjectService.Objects (takeCollectionID r) (NewRange (r.Header "Range")).1
      (newFilter r) = (objects, cr, none))
    (hne : 1 ≤ objects.length) :
    ((NewRange (r.Header "Range")).2 ≠ none → statusCode (h.getObjects lib r) = 416) ∧
    ((NewRange (r.Header "Range")).2 = none → lib.NewBundle.2 = none →
      (0 ≤ cr.First ∧ cr.First ≤ cr.Last → statusCode (h.getObjects lib r) = 206) ∧
      (¬ (0 ≤ cr.First ∧ cr.First ≤ cr.Last) →
        statusCode (h.getObjects lib r) = 200 ∧
        responseBody (h.getObjects lib r) = [Resource.bundle
          { lib.NewBundle.1 with
            Objects := lib.NewBundle.1.Objects ++ objects.map (fun o => o.Object) }])) ∧
    ((NewRange (r.Header "Range")).2 = none → lib.NewBundle.2 = none →
      cr.First = (NewRange (r.Header "Range")).1.First →
      cr.Last = (NewRange (r.Header "Range")).1.Last →
      (0 ≤ (NewRange (r.Header "Range")).1.First ∧
          (NewRange (r.Header "Range")).1.First ≤ (NewRange (r.Header "Range")).1.Last →
        statusCode (h.getObjects lib r) = 206) ∧
      (¬ (0 ≤ (NewRange (r.Header "Range")).1.First ∧
          (NewRange (r.Header "Range")).1.First ≤ (NewRange (r.Header "Range")).1.Last) →
        statusCode (h.getObjects lib r) = 200) ∧
      (r.Header "Range" = "" → statusCode (h.getObjects lib r) = 200)) ∧
    ((NewRange (r.Header "Range")).2 = none → lib.NewBundle.2 ≠ none →
      statusCode (h.getObjects lib r) = 500) := by
  have hlen : ¬ objects.length ≤ 0 := by omega
  have hparsed : (NewRange (r.Header "Range")).2 = none → lib.NewBundle.2 = none →
      (0 ≤ cr.First ∧ cr.First ≤ cr.Last → statusCode (h.getObjects lib r) = 206) ∧
      (¬ (0 ≤ cr.First ∧ cr.First ≤ cr.Last) →
        statusCode (h.getObjects lib r) = 200 ∧
        responseBody (h.getObjects lib r) = [Resource.bundle
          { lib.NewBundle.1 with
            Objects := lib.NewBundle.1.Objects ++ objects.map (fun o => o.Object) }]) := by
    intro hok hfresh
    have hb := objectsToBundle_ok lib objects hfresh hne
    rcases hr : NewRange (r.Header "Range") with ⟨parsed, err⟩
    rw [hr] at hok hq
    simp only at hok hq
    subst hok
    constructor
    · intro hvalid
      have hv : cr.Valid = true := (Range_Valid_iff cr).mpr hvalid
      simp [ObjectsHandler.getObjects, hr, hq, hlen, hb, hv, writePartialContent, statusCode]
    · intro hinvalid
      have hv : cr.Valid = false := by
        cases hc : cr.Valid with
        | false => rfl
        | true => exact absurd ((Range_Valid_iff cr).mp hc) hinvalid
      simp [ObjectsHandler.getObjects, hr, hq, hlen, hb, hv, writeContent, statusCode,
        responseBody]
  refine ⟨?_, hparsed, ?_, ?_⟩
  · intro herr
    rcases hr : NewRange (r.Header "Range") with ⟨parsed, err⟩
    rw [hr] at herr
    cases err with
    | none => simp at herr
    | some e =>
      simp [ObjectsHandler.getObjects, hr, rangeNotSatisfiable, errorStatus, statusCode]
  · intro hok hfresh hfirst hlast
    obtain ⟨h206, h200⟩ := hparsed hok hfresh
    rw [hfirst, hlast] at h206 h200
    refine ⟨h206, fun hinv => (h200 hinv).1, ?_⟩
    intro habsent
    have hnr : NewRange (r.Header "Range") = (Range.sentinel, none) := by
      rw [habsent]
      rfl
    refine (h200 ?_).1
    rw [hnr]
    decide
  · intro hok hfresh
    have hb := objectsToBundle_fail lib objects hfresh
    rcases hr : NewRange (r.Header "Range") with ⟨parsed, err⟩
    rw [hr] at hok hq
    simp only at hok hq
    subst hok
    rcases hob : objectsToBundle lib objects with ⟨bundle, berr⟩
    rw [hob] at hb
    cases berr with
    | none => simp at hb
    | some e =>
      simp [ObjectsHandler.getObjects, hr, hq, hlen, hob, internalServerError, errorStatus,
        statusCode]

/-- Witness for C10: the headers of `TestObjectsHandlerGetInvalidRange`, the header
`items 5-2`, and no header, against a one-object result of a collaborator that leaves
`First` and `Last` as parsed. -/
theorem C10_list_status_witness :
    statusCode (testHandler.getObjects testLib (testGet "items invalid")) = 416 ∧
      statusCode (testHandler.getObjects testLib (testGet "items 0-0")) = 206 ∧
      statusCode (testHandler.getObjects testLib (testGet "items 5-2")) = 200 ∧
      statusCode (testHandler.getObjects testLib (testGet "")) = 200 :=
  ⟨(C10_list_status testLib testHandler (testGet "items invalid") [testObject]
      { First := -1, Last := -1, Total := 1 } rfl (by decide)).1 (by decide),
   ((C10_list_status testLib testHandler (testGet "items 0-0") [testObject]
      { First := 0, Last := 0, Total := 1 } (by decide) (by decide)).2.2.1
      (by decide) rfl (by decide) (by decide)).1 (by decide),
   ((C10_list_status testLib testHandler (testGet "items 5-2") [testObject]
      { First := 5, Last := 2, Total := 1 } (by decide) (by decide)).2.2.1
      (by decide) rfl (by decide) (by decide)).2.1 (by decide),
   ((C10_list_status testLib testHandler (testGet "") [testObject]
      { First := -1, Last := -1, Total := 1 } (by decide) (by decide)).2.2.1
      (by decide) rfl (by decide) (by decide)).2.2 rfl⟩

/-- Counterexample to C10 as stated: the storage query succeeds with one object in each
case. A collaborator that resets the range answers the valid header `items 0-9` with 200
(claimed 206); one that writes the window it materialized answers a request without header
with 206 (claimed 200); and with `stones.NewBundle` failing the answer is 500 without a
header (claimed 200) and with the valid header `items 0-0` (claimed 206). -/
theorem C10_counterexample :
    NewRange ((testGet "items 0-9").Header "Range") =
        ({ First := 0, Last := 9, Total := 0 }, none) ∧
      testHandlerResetting.ObjectService.Objects (takeCollectionID (testGet "items 0-9"))
        { First := 0, Last := 9, Total := 0 } (newFilter (testGet "items 0-9")) =
        ([testObject], Range.sentinel, none) ∧
      statusCode (testHandlerResetting.getObjects testLib (testGet "items 0-9")) = 200 ∧
      statusCode (testHandlerResetting.getObjects testLib (testGet "items 0-9")) ≠ 206 ∧
      (testGet "").Header "Range" = "" ∧
      statusCode (testHandlerClamping.getObjects testLib (testGet "")) = 206 ∧
      statusCode (testHandlerClamping.getObjects testLib (testGet "")) ≠ 200 ∧
      statusCode (testHandler.getObjects testLibNoBundle (testGet "")) = 500 ∧
      statusCode (testHandler.getObjects testLibNoBundle (testGet "items 0-0")) = 500 := by
  decide

/-! ## The `Content-Range` of a partial listing -/

/-- A run of `getObjects` that answers 206 went through every guard: the header parsed, the
query returned at least one object without error, the bundle was built, the range the
collaborator left is valid, and the effects are the `Content-Range` header followed by the
partial-content writes. -/
theorem getObjects_partial (lib : Lib) (h : ObjectsHandler) (r : Request)
    (h206 : statusCode (h.getObjects lib r) = 206) :
    ∃ parsed objects cr bundle,
      NewRange (r.Header "Range") = (parsed, none) ∧
      h.ObjectService.Objects (takeCollectionID r) parsed (newFilter r) =
        (objects, cr, none) ∧
      1 ≤ objects.length ∧
      objectsToBundle lib objects = (bundle, none) ∧
      cr.Valid = true ∧
      h.getObjects lib r =
        Event.setHeader "Content-Range" cr.String ::
          writePartialContent StixContentType (Resource.bundle bundle) := by
  rcases hr : NewRange (r.Header "Range") with ⟨parsed, err⟩
  cases err with
  | some e =>
    simp [ObjectsHandler.getObjects, hr, rangeNotSatisfiable, errorStatus, statusCode] at h206
  | none =>
    rcases hq : h.ObjectService.Objects (takeCollectionID r) parsed (newFilter r) with
      ⟨objects, cr, qerr⟩
    cases qerr with
    | some e =>
      simp [ObjectsHandler.getObjects, hr, hq, internalServerError, errorStatus, statusCode]
        at h206
    | none =>
      by_cases hlen : objects.length ≤ 0
      · simp [ObjectsHandler.getObjects, hr, hq, hlen, resourceNotFound, errorStatus,
          statusCode] at h206
      · rcases hob : objectsToBundle lib objects with ⟨bundle, berr⟩
        cases berr with
        | some e =>
          simp [ObjectsHandler.getObjects, hr, hq, hlen, hob, internalServerError,
            errorStatus, statusCode] at h206
        | none =>
          cases hv : cr.Valid with
          | false =>
            simp [ObjectsHandler.getObjects, hr, hq, hlen, hob, hv, writeContent, statusCode]
              at h206
          | true =>
            refine ⟨parsed, objects, cr, bundle, rfl, hq, by omega, hob, hv, ?_⟩
            simp [ObjectsHandler.getObjects, hr, hq, hlen, hob, hv]

theorem responseHeader_partial (v : String) (bundle : Bundle) :
    responseHeader "Content-Range"
      (Event.setHeader "Content-Range" v ::
        writePartialContent StixContentType (Resource.bundle bundle)) = some v := by
  have hne : ¬ ("Content-Type" = "Content-Range") := by decide
  simp [responseHeader, writePartialContent, hne]

/-- Claim C11, as amended: for a list request with the header `items f-l` that is answered
206, the `Content-Range` response header is the text of the range as the storage
collaborator left it behind the pointer it was handed. When the collaborator leaves `First`
and `Last` as requested, it is `items f-l/t` when the total `t` it reported is not 0 and
`items f-l` (no total) when it is 0; in general it is `cr.String()` of the range left. -/
theorem C11_content_range (lib : Lib) (h : ObjectsHandler) (r : Request) (f l : Nat)
    (cr : Range)
    (hhdr : r.Header "Range" = "items " ++ Nat.repr f ++ "-" ++ Nat.repr l)
    (hf : (f : Int) ≤ maxInt64) (hl : (l : Int) ≤ maxInt64)
    (ht : (h.ObjectService.Objects (takeCollectionID r)
      { First := (f : Int), Last := (l : Int), Total := 0 } (newFilter r)).2.1 = cr)
    (h206 : statusCode (h.getObjects lib r) = 206) :
    responseHeader "Content-Range" (h.getObjects lib r) = some cr.String ∧
    (cr.First = (f : Int) → cr.Last = (l : Int) →
      (cr.Total ≠ 0 → responseHeader "Content-Range" (h.getObjects lib r) =
        some ("items " ++ Nat.repr f ++ "-" ++ Nat.repr l ++ "/" ++ toString cr.Total)) ∧
      (cr.Total = 0 → responseHeader "Content-Range" (h.getObjects lib r) =
        some ("items " ++ Nat.repr f ++ "-" ++ Nat.repr l)) ∧
      f ≤ l) := by
  obtain ⟨parsed, objects, cr1, bundle, hr, hq, _, _, hv, htrace⟩ :=
    getObjects_partial lib h r h206
  rw [hhdr, NewRange_items f l hf hl] at hr
  simp only [Prod.mk.injEq, and_true] at hr
  subst hr
  rw [hq] at ht
  simp only at ht
  subst ht
  rw [htrace, responseHeader_partial]
  refine ⟨rfl, ?_⟩
  intro hfirst hlast
  refine ⟨?_, ?_, ?_⟩
  · intro hne
    simp [Range.String, hne, hfirst, hlast, toString_natCast]
  · intro hz
    simp [Range.String, hz, hfirst, hlast, toString_natCast]
  · simp only [Range.Valid, Bool.and_eq_true, decide_eq_true_eq] at hv
    omega

/-- Witness for C11: the request `items 0-9` of `TestObjectsHandlerGetObjectsRange` against a
collaborator that leaves the bounds and reports a total of 1. -/
theorem C11_content_range_witness :
    responseHeader "Content-Range" (testHandler.getObjects testLib (testGet "items 0-9")) =
      some "items 0-9/1" :=
  ((C11_content_range testLib testHandler (testGet "items 0-9") 0 9
    { First := 0, Last := 9, Total := 1 } (by decide) (by decide) (by decide) (by decide)
    (by decide)).2 rfl rfl).1 (by decide)

/-- Counterexample to C11 as stated: a collaborator that writes the window it materialized
answers the request `items 0-9` with `Content-Range: items 0-0/1`, not `items 0-9/1`; and a
collaborator that returns one object and leaves the range untouched (total 0) answers
`items 0-0` with `Content-Range: items 0-0`, not `items 0-0/0`. -/
theorem C11_counterexample :
    NewRange ((testGet "items 0-9").Header "Range") =
        ({ First := 0, Last := 9, Total := 0 }, none) ∧
      testHandlerClamping.ObjectService.Objects (takeCollectionID (testGet "items 0-9"))
        { First := 0, Last := 9, Total := 0 } (newFilter (testGet "items 0-9")) =
        ([testObject], { First := 0, Last := 0, Total := 1 }, none) ∧
      statusCode (testHandlerClamping.getObjects testLib (testGet "items 0-9")) = 206 ∧
      responseHeader "Content-Range"
        (testHandlerClamping.getObjects testLib (testGet "items 0-9")) = some "items 0-0/1" ∧
      responseHeader "Content-Range"
        (testHandlerClamping.getObjects testLib (testGet "items 0-9")) ≠ some "items 0-9/1" ∧
      testHandlerNoTotal.ObjectService.Objects (takeCollectionID (testGet "items 0-0"))
        { First := 0, Last := 0, Total := 0 } (newFilter (testGet "items 0-0")) =
        ([testObject], { First := 0, Last := 0, Total := 0 }, none) ∧
      statusCode (testHandlerNoTotal.getObjects testLib (testGet "items 0-0")) = 206 ∧
      responseHeader "Content-Range"
        (testHandlerNoTotal.getObjects testLib (testGet "items 0-0")) = some "items 0-0" ∧
      responseHeader "Content-Range"
        (testHandlerNoTotal.getObjects testLib (testGet "items 0-0")) ≠
        some "items 0-0/0" := by
  decide

/-- Claim C12, as amended: for every list request answered 206, the window in
`Content-Range` is the range as the storage collaborator left it behind the pointer it was
handed (valid, with the total it reported), and the returned bundle holds the payloads of
exactly the objects the collaborator returned, at least one. The handler itself neither
clamps the window nor relates the number of objects to `Last - First + 1` or `Last` to the
total. -/
theorem C12_echoed_window (lib : Lib) (h : ObjectsHandler) (r : Request)
    (h206 : statusCode (h.getObjects lib r) = 206) :
    ∃ objects cr bundle,
      h.ObjectService.Objects (takeCollectionID r) (NewRange (r.Header "Range")).1
        (newFilter r) = (objects, cr, none) ∧
      responseHeader "Content-Range" (h.getObjects lib r) = some cr.String ∧
      responseBody (h.getObjects lib r) = [Resource.bundle bundle] ∧
      bundle.Objects = lib.NewBundle.1.Objects ++ objects.map (fun o => o.Object) ∧
      0 ≤ cr.First ∧ cr.First ≤ cr.Last ∧ 1 ≤ objects.length := by
  obtain ⟨parsed, objects, cr, bundle, hr, hq, hlen, hob, hv, htrace⟩ :=
    getObjects_partial lib h r h206
  have hfresh : lib.NewBundle.2 = none := by
    by_contra hne
    have := objectsToBundle_fail lib objects hne
    rw [hob] at this
    simp at this
  rw [objectsToBundle_ok lib objects hfresh hlen] at hob
  simp only [Prod.mk.injEq, and_true] at hob
  subst hob
  have hvalid := (Range_Valid_iff cr).mp hv
  refine ⟨objects, cr,
    { lib.NewBundle.1 with
      Objects := lib.NewBundle.1.Objects ++ objects.map (fun o => o.Object) },
    ?_, ?_, ?_, rfl, hvalid.1, hvalid.2, hlen⟩
  · rw [hr]
    exact hq
  · rw [htrace, responseHeader_partial]
  · rw [htrace]
    simp [responseBody, writePartialContent]

/-- Witness for C12: the request `items 0-0` against the one-object result. -/
theorem C12_echoed_window_witness :
    ∃ objects cr bundle,
      testHandler.ObjectService.Objects (takeCollectionID (testGet "items 0-0"))
        (NewRange ((testGet "items 0-0").Header "Range")).1
        (newFilter (testGet "items 0-0")) = (objects, cr, none) ∧
      responseHeader "Content-Range" (testHandler.getObjects testLib (testGet "items 0-0")) =
        some cr.String ∧
      responseBody (testHandler.getObjects testLib (testGet "items 0-0")) =
        [Resource.bundle bundle] ∧
      bundle.Objects = testLib.NewBundle.1.Objects ++ objects.map (fun o => o.Object) ∧
      0 ≤ cr.First ∧ cr.First ≤ cr.Last ∧ 1 ≤ objects.length :=
  C12_echoed_window testLib testHandler (testGet "items 0-0") (by decide)

/-- Counterexample to C12 as stated: a collaborator that returns the one object of the
collection and leaves the requested bounds answers `items 0-9` with 206,
`Content-Range: items 0-9/1` and a bundle of one object, so the bundle does not hold
`Last - First + 1 = 10` objects and `Last = 9` is not below the total 1. -/
theorem C12_counterexample :
    statusCode (testHandler.getObjects testLib (testGet "items 0-9")) = 206 ∧
      responseHeader "Content-Range" (testHandler.getObjects testLib (testGet "items 0-9")) =
        some (Range.String { First := 0, Last := 9, Total := 1 }) ∧
      Range.String { First := 0, Last := 9, Total := 1 } = "items 0-9/1" ∧
      responseBody (testHandler.getObjects testLib (testGet "items 0-9")) = [Resource.bundle
        { Type_ := "bundle", ID := "bundle--1", SpecVersion := "2.0",
          Objects := [testObject.Object] }] ∧
      ((1 : Int) ≠ 9 - 0 + 1) ∧ ¬ ((9 : Int) < 1) := by
  decide

/-! ## The range codec -/

/-- Claim C13: `r.Valid()` is true if and only if `r.First >= 0` and `r.Last >= r.First`,
whatever `r.Total` is; the sentinel `{First: -1, Last: -1}` is not valid, `{0, 0}` is valid,
`{1, 0}` and `{0, -1}` are not. -/
theorem C13_valid_iff (r : Range) :
    (r.Valid = true ↔ (r.First ≥ 0 ∧ r.Last ≥ r.First)) ∧
      (∀ total : Int, ({ r with Total := total } : Range).Valid = r.Valid) ∧
      (∀ total : Int, (Range.mk (-1) (-1) total).Valid = false) ∧
      Range.sentinel.Valid = false ∧
      (Range.mk 0 0 0).Valid = true ∧ (Range.mk 1 0 0).Valid = false ∧
      (Range.mk 0 (-1) 0).Valid = false := by
  refine ⟨?_, fun _ => rfl, fun _ => rfl, by decide, by decide, by decide, by decide⟩
  simp [Range.Valid]

theorem dropKeyword_some (kw : List Char) : ∀ (cs rest : List Char),
    dropKeyword kw cs = some rest → cs = kw ++ rest := by
  induction kw with
  | nil =>
    intro cs rest h
    cases cs <;> simp [dropKeyword] at h <;> simp [h]
  | cons k ks ih =>
    intro cs rest h
    cases cs with
    | nil => simp [dropKeyword] at h
    | cons c cs =>
      by_cases hk : k = c
      · simp only [dropKeyword, hk, if_true] at h
        rw [hk, ih cs rest h]
        rfl
      · simp [dropKeyword, hk] at h

theorem parseNumber_some (cs : List Char) (n : Int) (h : parseNumber cs = some n) :
    numericToken cs := by
  unfold parseNumber at h
  split at h
  · simp at h
  · rename_i hne
    split at h
    · rename_i hall
      exact ⟨hne, hall⟩
    · simp at h

/-- Every non-empty text that `NewRange` does not reject has the shape
`items <first>-<last>` with two numeric tokens. -/
theorem NewRange_accepts (s : String) (hne : s ≠ "") (r : Range)
    (h : NewRange s = (r, none)) :
    ∃ a b : List Char, s.data = "items ".data ++ (a ++ '-' :: b) ∧
      numericToken a ∧ numericToken b := by
  unfold NewRange at h
  simp only [hne, if_false] at h
  split at h
  · simp at h
  · rename_i rest hk
    have hs := dropKeyword_some _ _ _ hk
    split at h
    · rename_i first tl hfirst hdrop
      split at h
      · rename_i last hlast
        refine ⟨rest.takeWhile (fun c => c != '-'), tl, ?_, parseNumber_some _ _ hfirst,
          parseNumber_some _ _ hlast⟩
        rw [hs, ← hdrop, List.takeWhile_append_dropWhile]
      · simp at h
    · simp at h

theorem NewRange_error_sentinel (s : String) (e : String) (r : Range)
    (h : NewRange s = (r, some e)) : r = Range.sentinel ∧ e = invalidRangeError := by
  unfold NewRange at h
  split at h
  · simp at h
  · split at h
    · simp only [Prod.mk.injEq, Option.some.injEq] at h
      exact ⟨h.1.symm, h.2.symm⟩
    · split at h
      · split at h
        · simp at h
        · simp only [Prod.mk.injEq, Option.some.injEq] at h
          exact ⟨h.1.symm, h.2.symm⟩
      · simp only [Prod.mk.injEq, Option.some.injEq] at h
        exact ⟨h.1.symm, h.2.symm⟩

/-- Claim C14: a non-empty header text that is not `items <first>-<last>` with two numeric
tokens (the dash is missing, the second number is missing, or a token is not numeric) makes
`NewRange` return a non-nil error together with exactly the sentinel
`Range{First: -1, Last: -1}`. -/
theorem C14_malformed_range (s : String) (hne : s ≠ "")
    (hbad : ¬ ∃ a b : List Char, s.data = "items ".data ++ (a ++ '-' :: b) ∧
      numericToken a ∧ numericToken b) :
    NewRange s = (Range.sentinel, some invalidRangeError) ∧ (NewRange s).2 ≠ none ∧
      (NewRange s).1 = { First := -1, Last := -1, Total := 0 } := by
  have key : NewRange s = (Range.sentinel, some invalidRangeError) := by
    rcases hr : NewRange s with ⟨r, err⟩
    cases err with
    | none => exact absurd (NewRange_accepts s hne r hr) hbad
    | some e =>
      obtain ⟨h1, h2⟩ := NewRange_error_sentinel s e r hr
      rw [h1, h2]
  rw [key]
  exact ⟨rfl, by simp, rfl⟩

/-- Witness for C14: `items 0 10` has no dash; the other texts of the claim are rejected in
the same way. -/
theorem C14_malformed_range_witness :
    (NewRange "items 0 10" = (Range.sentinel, some invalidRangeError) ∧
        (NewRange "items 0 10").2 ≠ none ∧
        (NewRange "items 0 10").1 = { First := -1, Last := -1, Total := 0 }) ∧
      NewRange "items 10" = (Range.sentinel, some invalidRangeError) ∧
      NewRange "items invalid" = (Range.sentinel, some invalidRangeError) ∧
      NewRange "items a-3" = (Range.sentinel, some invalidRangeError) ∧
      NewRange "items 3-b" = (Range.sentinel, some invalidRangeError) ∧
      NewRange "items 3-" = (Range.sentinel, some invalidRangeError) :=
  ⟨C14_malformed_range "items 0 10" (by decide)
    (by
      rintro ⟨a, b, h, _, _⟩
      have hdash : '-' ∈ "items 0 10".data := by
        rw [h]
        simp
      revert hdash
      decide),
   by decide, by decide, by decide, by decide, by decide⟩

/-- Claim C15: `NewRange("")` returns the sentinel `Range{First: -1, Last: -1}` with `Total`
0 and a nil error. -/
theorem C15_absent_range :
    NewRange "" = ({ First := -1, Last := -1, Total := 0 }, none) ∧
      (NewRange "").2 = none ∧ (NewRange "").1 = Range.sentinel := by
  decide

/-- Claim C16: for non-negative integers `a` and `b` representable as `int64`, in either
order, `NewRange` of the decimal text `items a-b` returns `Range{First: a, Last: b,
Total: 0}` and a nil error. -/
theorem C16_numeric_pair (a b : Int) (ha0 : 0 ≤ a) (hb0 : 0 ≤ b)
    (ha : inInt64 a) (hb : inInt64 b) :
    NewRange ("items " ++ toString a ++ "-" ++ toString b) =
      ({ First := a, Last := b, Total := 0 }, none) := by
  obtain ⟨m, rfl⟩ := Int.eq_ofNat_of_zero_le ha0
  obtain ⟨n, rfl⟩ := Int.eq_ofNat_of_zero_le hb0
  rw [toString_natCast, toString_natCast]
  exact NewRange_items m n ha.2 hb.2

/-- Witness for C16: the pair 10, 3, with `a > b`. -/
theorem C16_numeric_pair_witness :
    NewRange ("items " ++ toString (10 : Int) ++ "-" ++ toString (3 : Int)) =
      ({ First := 10, Last := 3, Total := 0 }, none) :=
  C16_numeric_pair 10 3 (by decide) (by decide) (by decide) (by decide)

theorem toString_negSucc (n : Nat) :
    toString (Int.negSucc n) = "-" ++ Nat.repr (n + 1) := rfl

theorem toString_int_no_slash (i : Int) : '/' ∉ (toString i).data := by
  intro hmem
  cases i with
  | ofNat n =>
    have h1 : toString (Int.ofNat n) = Nat.repr n := rfl
    rw [h1] at hmem
    have := ((repr_data_spec n).2.1 '/' hmem).1
    revert this
    decide
  | negSucc n =>
    rw [toString_negSucc, String.data_append] at hmem
    rcases List.mem_append.mp hmem with h | h
    · revert h
      decide
    · have := ((repr_data_spec (n + 1)).2.1 '/' h).1
      revert this
      decide

/-- Claim C17: `r.String()` is `items ` followed by `First`, `-` and `Last` in decimal, with
`/` and `Total` in decimal appended if and only if `Total != 0`; `{0,0,0}` gives `items 0-0`
and `{0,0,50}` gives `items 0-0/50`. -/
theorem C17_range_string (r : Range) :
    (r.Total ≠ 0 → r.String =
        "items " ++ toString r.First ++ "-" ++ toString r.Last ++ "/" ++ toString r.Total) ∧
      (r.Total = 0 → r.String = "items " ++ toString r.First ++ "-" ++ toString r.Last) ∧
      ('/' ∈ r.String.data ↔ r.Total ≠ 0) ∧
      (Range.mk 0 0 0).String = "items 0-0" ∧ (Range.mk 0 0 50).String = "items 0-0/50" := by
  have hbase : '/' ∉ ("items " ++ toString r.First ++ "-" ++ toString r.Last).data := by
    intro hmem
    simp only [String.data_append, List.mem_append] at hmem
    rcases hmem with ((h | h) | h) | h
    · revert h
      decide
    · exact toString_int_no_slash _ h
    · revert h
      decide
    · exact toString_int_no_slash _ h
  refine ⟨?_, ?_, ?_, by decide, by decide⟩
  · intro hne
    simp [Range.String, hne]
  · intro hz
    simp [Range.String, hz]
  · by_cases hz : r.Total = 0
    · have hs : r.String = "items " ++ toString r.First ++ "-" ++ toString r.Last := by
        simp [Range.String, hz]
      rw [hs]
      constructor
      · intro hmem
        exact absurd hmem hbase
      · intro hne
        exact absurd hz hne
    · have hs : r.String =
          "items " ++ toString r.First ++ "-" ++ toString r.Last ++ "/" ++ toString r.Total := by
        simp [Range.String, hz]
      rw [hs]
      constructor
      · intro _
        exact hz
      · intro _
        simp [String.data_append]

/-- Witness for C17: the range `{First: 3, Last: 7, Total: 12}`. -/
theorem C17_range_string_witness :
    (Range.mk 3 7 12).String =
      "items " ++ toString (3 : Int) ++ "-" ++ toString (7 : Int) ++ "/" ++
        toString (12 : Int) :=
  (C17_range_string (Range.mk 3 7 12)).1 (by decide)

/-! ## `NewStatus` -/

/-- Claim C18: for every object count `n >= 1`, `NewStatus(n)` returns no error and a status
with `TotalCount = n`, `SuccessCount = 0`, `FailureCount = 0`, `PendingCount = n` and label
`pending`. -/
theorem C18_new_status (n : Int) (id : ID) (hn : 1 ≤ n) :
    NewStatus n id =
      ({ ID := id, Status := "pending", TotalCount := n, SuccessCount := 0,
         FailureCount := 0, PendingCount := n }, none) := by
  have hlt : ¬ n < 1 := by omega
  simp [NewStatus, hlt]

/-- Witness for C18: `NewStatus(1)` of `TestNewStatus`. -/
theorem C18_new_status_witness :
    NewStatus 1 "s1" =
      ({ ID := "s1", Status := "pending", TotalCount := 1, SuccessCount := 0,
         FailureCount := 0, PendingCount := 1 }, none) :=
  C18_new_status 1 "s1" (by decide)

/-- Claim C19: `NewStatus(0)` returns a non-nil error, whatever identifier is at hand. -/
theorem C19_new_status_zero (id : ID) : (NewStatus 0 id).2 ≠ none := by
  simp [NewStatus]

/-! ## `bundleFromBytes` -/

/-- Claim C20: `bundleFromBytes(b)` returns a non-nil error if and only if `b` does not
deserialize into a bundle or the deserialized bundle fails validation; when `b` deserializes
and validates, the error is nil and the returned bundle is the deserialized one. -/
theorem C20_bundle_from_bytes (lib : Lib) (b : String) :
    ((bundleFromBytes lib b).2 ≠ none ↔
        ((lib.Unmarshal b).2 ≠ none ∨ (lib.Validate (lib.Unmarshal b).1).1 = false)) ∧
      ((lib.Unmarshal b).2 = none → (lib.Validate (lib.Unmarshal b).1).1 = true →
        bundleFromBytes lib b = ((lib.Unmarshal b).1, none)) := by
  rcases hu : lib.Unmarshal b with ⟨bundle, uerr⟩
  cases uerr with
  | some e => simp [bundleFromBytes, hu]
  | none =>
    rcases hv : lib.Validate bundle with ⟨ok, errs⟩
    cases ok with
    | false => simp [bundleFromBytes, hu, hv]
    | true => simp [bundleFromBytes, hu, hv]

/-- Witness for C20: the three-object bundle deserializes and validates. -/
theorem C20_bundle_from_bytes_witness :
    bundleFromBytes testLib "malware_bundle.json" = (testBundle, none) :=
  (C20_bundle_from_bytes testLib "malware_bundle.json").2 (by decide) (by decide)

/-! ## The aggregated validation error -/

theorem foldl_validation (errs : List String) : ∀ acc : String,
    errs.foldl (fun acc e => acc ++ ("\nValidation Error: " ++ e)) acc =
      acc ++ errs.foldr (fun e rest => "\nValidation Error: " ++ e ++ rest) "" := by
  induction errs with
  | nil =>
    intro acc
    simp
  | cons e es ih =>
    intro acc
    simp only [List.foldl_cons, List.foldr_cons, ih, String.append_assoc]

/-- The shape of the error `bundleFromBytes` returns for an invalid bundle: the aggregated
text, handed to `fmt.Errorf` as its format string. -/
theorem bundleFromBytes_invalid (lib : Lib) (b : String) (bundle : Bundle)
    (errs : List String)
    (hu : lib.Unmarshal b = (bundle, none)) (hv : lib.Validate bundle = (false, errs)) :
    bundleFromBytes lib b = (bundle, some (lib.Errorf (aggregatedText errs))) := by
  simp [bundleFromBytes, hu, hv, foldl_validation, aggregatedText]

theorem fmtNoOperands_verbatim (cs : List Char) (h : '%' ∉ cs) : fmtNoOperands cs = cs := by
  induction cs with
  | nil => rfl
  | cons c rest ih =>
    have hc : c ≠ '%' := fun heq => h (by simp [heq])
    have hrest : '%' ∉ rest := fun hmem => h (by simp [hmem])
    unfold fmtNoOperands
    split
    · simp at *
    · rename_i heq
      simp only [List.cons.injEq] at heq
      exact absurd heq.1 hc
    · rename_i heq
      simp only [List.cons.injEq] at heq
      exact absurd heq.1 hc
    · rename_i heq
      simp only [List.cons.injEq] at heq
      exact absurd heq.1 hc
    · rename_i heq
      simp only [List.cons.injEq] at heq
      obtain ⟨rfl, rfl⟩ := heq
      rw [ih hrest]

/-- Claim C21, at a failing input: the bundle deserializes, validation reports the single
message `invalid name: Poison%dIvy`, and the error of `bundleFromBytes` reads
`...Poison%!d(MISSING)Ivy`: the aggregated text went through `fmt.Errorf` as a format
string, so the message does not appear unaltered. -/
theorem C21_format_verbs_rewritten :
    testLibFmt.Unmarshal "malware_bundle.json" = (testBundle, none) ∧
      testLibFmt.Validate testBundle = (false, ["invalid name: Poison%dIvy"]) ∧
      aggregatedText ["invalid name: Poison%dIvy"] =
        "Invalid bundle:\nValidation Error: invalid name: Poison%dIvy" ∧
      bundleFromBytes testLibFmt "malware_bundle.json" =
        (testBundle,
          some "Invalid bundle:\nValidation Error: invalid name: Poison%!d(MISSING)Ivy") ∧
      (bundleFromBytes testLibFmt "malware_bundle.json").2 ≠
        some (aggregatedText ["invalid name: Poison%dIvy"]) := by
  decide

/-! ## The error helpers -/

theorem isErrorResponse_errorStatus (title err : String) (status : Nat) :
    isErrorResponse (errorStatus title err status) title err status :=
  ⟨(statusCode_errorStatus title err status).1, (statusCode_errorStatus title err status).2.1⟩

/-- Claim C22: each error helper writes the structured body `title`, `description`, `status`
whose status field is the HTTP status code written (400, 403, 500, 405, 404, 413, 416, 401
and 415) and whose description is the text of the error the helper hands to `errorStatus`:
the error passed in, and for `requestTooLarge` the error it builds from the two lengths. -/
theorem C22_error_helpers (err : String) (rc mc : Int) :
    isErrorResponse (badRequest err) "Bad Request" err 400 ∧
      isErrorResponse (forbidden err) "Forbidden" err 403 ∧
      isErrorResponse (internalServerError err) "Internal Server Error" err 500 ∧
      isErrorResponse (methodNotAllowed err) "Method Not Allowed" err 405 ∧
      isErrorResponse (resourceNotFound err) "Resource Not Found" err 404 ∧
      isErrorResponse (requestTooLarge rc mc) "Request Too large"
        ("content length is " ++ toString rc ++ ", content length can't be bigger than " ++
          toString mc) 413 ∧
      isErrorResponse (rangeNotSatisfiable err) "Requested Range Not Satisfiable" err 416 ∧
      isErrorResponse (unauthorized err) "Unauthorized" err 401 ∧
      isErrorResponse (unsupportedMediaType err) "Unsupported Media Type" err 415 := by
  refine ⟨isErrorResponse_errorStatus _ _ _, isErrorResponse_errorStatus _ _ _,
    isErrorResponse_errorStatus _ _ _, isErrorResponse_errorStatus _ _ _,
    isErrorResponse_errorStatus _ _ _, isErrorResponse_errorStatus _ _ _,
    isErrorResponse_errorStatus _ _ _, ?_, isErrorResponse_errorStatus _ _ _⟩
  simp [isErrorResponse, unauthorized, errorStatus, statusCode, responseBody]

/-! ## Access resolution -/

/-- Claim C23: `takeCollectionAccess` always yields a `CollectionAccess` (it has no error
result), and when the request context carries no access map, the collection id of the path
is not a valid id, or the map has no entry for that id, the result is the zero value, with
`CanRead = false` and `CanWrite = false`. -/
theorem C23_access_resolution (lib : Lib) (r : Request) :
    (r.UserCollectionList = none → takeCollectionAccess lib r = CollectionAccess.zero) ∧
      (lib.IDFromString (takeCollectionID r) = none →
        takeCollectionAccess lib r = CollectionAccess.zero) ∧
      (∀ ca tid, r.UserCollectionList = some ca →
        lib.IDFromString (takeCollectionID r) = some tid → ca.lookup tid = none →
        takeCollectionAccess lib r = CollectionAccess.zero) ∧
      CollectionAccess.zero.CanRead = false ∧ CollectionAccess.zero.CanWrite = false := by
  refine ⟨?_, ?_, ?_, rfl, rfl⟩
  · intro h
    simp [takeCollectionAccess, h]
  · intro h
    unfold takeCollectionAccess
    cases r.UserCollectionList with
    | none => rfl
    | some ca => simp [h]
  · intro ca tid h1 h2 h3
    simp [takeCollectionAccess, h1, h2, h3]

/-- Witness for C23: the request of `TestTakeCollectionAccessInvalidCollection`, and the POST
of a user whose access list has no entry for the collection. -/
theorem C23_access_resolution_witness :
    takeCollectionAccess testLib testGetNoContext = CollectionAccess.zero ∧
      testLib.IDFromString (takeCollectionID testGetNoContext) = none ∧
      takeCollectionAccess testLib testPostNoAccess = CollectionAccess.zero :=
  ⟨(C23_access_resolution testLib testGetNoContext).1 rfl, by decide,
   (C23_access_resolution testLib testPostNoAccess).2.2.1 [] testCollectionID rfl
     (by decide) rfl⟩

/-! ## `objectsToBundle` -/

/-- Claim C26: `objectsToBundle` returns an error for the empty list, and for a non-empty
list, when `stones.NewBundle` returns a bundle without error, it returns no error and a
bundle whose `Objects` are the `Object` payloads of the input, in order and in number. A
fresh bundle is one without objects. -/
theorem C26_objects_to_bundle (lib : Lib) (objects : List Object)
    (hfresh : lib.NewBundle.1.Objects = []) :
    (objects = [] → (objectsToBundle lib objects).2 ≠ none) ∧
      (objects ≠ [] → lib.NewBundle.2 = none →
        (objectsToBundle lib objects).2 = none ∧
        (objectsToBundle lib objects).1.Objects = objects.map (fun o => o.Object) ∧
        (objectsToBundle lib objects).1.Objects.length = objects.length) := by
  rcases hnb : lib.NewBundle with ⟨fresh, err⟩
  rw [hnb] at hfresh
  simp only at hfresh
  constructor
  · intro hempty
    subst hempty
    cases err with
    | some e => simp [objectsToBundle, hnb]
    | none => simp [objectsToBundle, hnb, hfresh]
  · intro hne hok
    simp only at hok
    subst hok
    have hlen : ¬ (objects.map (fun o => o.Object)).length = 0 := by
      simp only [List.length_map]
      intro h0
      exact hne (List.length_eq_zero.mp h0)
    simp only [List.length_map] at hlen
    simp [objectsToBundle, hnb, hfresh, hlen, hne]

/-- Witness for C26: the one-object list of `tester/resources.go`. -/
theorem C26_objects_to_bundle_witness :
    (objectsToBundle testLib []).2 ≠ none ∧
      (objectsToBundle testLib [testObject]).2 = none ∧
      (objectsToBundle testLib [testObject]).1.Objects = [testObject.Object] ∧
      (objectsToBundle testLib [testObject]).1.Objects.length = 1 :=
  ⟨(C26_objects_to_bundle testLib [] rfl).1 rfl,
   (C26_objects_to_bundle testLib [testObject] rfl).2 (by decide) rfl⟩

/-! ## A request of unknown length -/

/-- Claim C28: for a request whose `ContentLength` is -1 and a `MaxContentLength >= 0`, the
size check of `validPost` does not reject: `greaterThan` is false, `Post` never answers 413
whatever body it then reads, and with acceptable headers and write capability `validPost`
passes. -/
theorem C28_unknown_length_passes (lib : Lib) (h : ObjectsHandler) (r : Request)
    (hcl : r.ContentLength = -1) (hmax : 0 ≤ h.MaxContentLength) :
    greaterThan r.ContentLength h.MaxContentLength = false ∧
      statusCode (h.Post lib r) ≠ 413 ∧
      (r.Header "Accept" = TaxiiContentType → r.Header "Content-Type" = StixContentType →
        (takeCollectionAccess lib r).CanWrite = true → h.validPost lib r = (true, [])) := by
  have hle : ¬ r.ContentLength > h.MaxContentLength := by omega
  refine ⟨?_, ?_, ?_⟩
  · cases hg : greaterThan r.ContentLength h.MaxContentLength with
    | false => rfl
    | true => exact absurd ((greaterThan_iff _ _).mp hg) hle
  · intro hs
    rcases validPost_cases lib h r with ⟨_, hv⟩ | ⟨_, _, hv⟩ | ⟨_, _, h3, _⟩ |
      ⟨_, _, _, _, hv⟩ | ⟨_, _, _, _, hv⟩
    · rw [Post_of_invalid lib h r _ hv, unsupportedMediaType,
        (statusCode_errorStatus _ _ _).1] at hs
      omega
    · rw [Post_of_invalid lib h r _ hv, unsupportedMediaType,
        (statusCode_errorStatus _ _ _).1] at hs
      omega
    · exact hle h3
    · rw [Post_of_invalid lib h r _ hv, forbidden, (statusCode_errorStatus _ _ _).1] at hs
      omega
    · rcases Post_valid_cases lib h r hv with ⟨err, _, hp⟩ | ⟨b, _, _, _, hp⟩ |
        ⟨b, st, e, _, _, _, _, hp⟩ | ⟨b, st, _, _, _, _, hp⟩
      · rw [hp, badRequest, (statusCode_errorStatus _ _ _).1] at hs
        omega
      · rw [hp, internalServerError, (statusCode_errorStatus _ _ _).1] at hs
        omega
      · rw [hp] at hs
        simp [statusCode, internalServerError, errorStatus] at hs
      · rw [hp, (acceptedTrace_spec _ _ _).1] at hs
        omega
  · intro ha hc hw
    exact validPost_pass lib h r ha hc hle hw

/-- Witness for C28: with a maximum of 1, the three-object POST sent without a declared
length is read in full (its body is longer than the maximum) and accepted. -/
theorem C28_unknown_length_passes_witness :
    (greaterThan testPostUnknownLength.ContentLength testHandlerSmall.MaxContentLength = false ∧
        statusCode (testHandlerSmall.Post testLib testPostUnknownLength) ≠ 413 ∧
        (testPostUnknownLength.Header "Accept" = TaxiiContentType →
          testPostUnknownLength.Header "Content-Type" = StixContentType →
          (takeCollectionAccess testLib testPostUnknownLength).CanWrite = true →
          testHandlerSmall.validPost testLib testPostUnknownLength = (true, []))) ∧
      (testHandlerSmall.MaxContentLength < (testPostUnknownLength.Body.1.length : Nat)) ∧
      statusCode (testHandlerSmall.Post testLib testPostUnknownLength) = 202 :=
  ⟨C28_unknown_length_passes testLib testHandlerSmall testPostUnknownLength rfl (by decide),
   by decide, by decide⟩

/-! ## Failures and empty results of the object service -/

/-- A run of `getObjects` that answers 200 or 206 queried the object service and received at
least one object without error. -/
theorem getObjects_success (lib : Lib) (h : ObjectsHandler) (r : Request)
    (hs : statusCode (h.getObjects lib r) = 200 ∨ statusCode (h.getObjects lib r) = 206) :
    ∃ objects cr,
      h.ObjectService.Objects (takeCollectionID r) (NewRange (r.Header "Range")).1
        (newFilter r) = (objects, cr, none) ∧ 1 ≤ objects.length := by
  rcases hr : NewRange (r.Header "Range") with ⟨parsed, err⟩
  cases err with
  | some e =>
    simp [ObjectsHandler.getObjects, hr, rangeNotSatisfiable, errorStatus, statusCode] at hs
  | none =>
    rcases hq : h.ObjectService.Objects (takeCollectionID r) parsed (newFilter r) with
      ⟨objects, cr, qerr⟩
    cases qerr with
    | some e =>
      simp [ObjectsHandler.getObjects, hr, hq, internalServerError, errorStatus, statusCode]
        at hs
    | none =>
      by_cases hlen : objects.length ≤ 0
      · simp [ObjectsHandler.getObjects, hr, hq, hlen, resourceNotFound, errorStatus,
          statusCode] at hs
      · exact ⟨objects, cr, rfl, by omega⟩

/-- A run of `getObject` that answers 200 or 206 received at least one object without
error. -/
theorem getObject_success (lib : Lib) (h : ObjectsHandler) (r : Request)
    (hs : statusCode (h.getObject lib r) = 200 ∨ statusCode (h.getObject lib r) = 206) :
    ∃ objects,
      h.ObjectService.Object (takeCollectionID r) (takeObjectID r) (newFilter r) =
        (objects, none) ∧ 1 ≤ objects.length := by
  rcases hq : h.ObjectService.Object (takeCollectionID r) (takeObjectID r) (newFilter r) with
    ⟨objects, qerr⟩
  cases qerr with
  | some e =>
    simp [ObjectsHandler.getObject, hq, internalServerError, errorStatus, statusCode] at hs
  | none =>
    by_cases hlen : objects.length ≤ 0
    · simp [ObjectsHandler.getObject, hq, hlen, resourceNotFound, errorStatus, statusCode]
        at hs
    · exact ⟨objects, rfl, by omega⟩

/-- Claim C25: in `getObjects`, once the `Range` header is absent or parses (so that the
object service is queried, whether or not the range is valid), and in `getObject`: an error
of the object service is answered 500 carrying that error's text, an empty list without
error is answered 404 with description `No objects defined in this collection`, and a 200
or 206 answer comes only with at least one object. -/
theorem C25_service_failures (lib : Lib) (h : ObjectsHandler) (r : Request) :
    ((NewRange (r.Header "Range")).2 = none →
      (∀ objects cr e,
        h.ObjectService.Objects (takeCollectionID r) (NewRange (r.Header "Range")).1
          (newFilter r) = (objects, cr, some e) →
        isErrorResponse (h.getObjects lib r) "Internal Server Error" e 500) ∧
      (∀ cr,
        h.ObjectService.Objects (takeCollectionID r) (NewRange (r.Header "Range")).1
          (newFilter r) = ([], cr, none) →
        isErrorResponse (h.getObjects lib r) "Resource Not Found"
          "No objects defined in this collection" 404)) ∧
    (∀ objects e,
      h.ObjectService.Object (takeCollectionID r) (takeObjectID r) (newFilter r) =
        (objects, some e) →
      isErrorResponse (h.getObject lib r) "Internal Server Error" e 500) ∧
    (h.ObjectService.Object (takeCollectionID r) (takeObjectID r) (newFilter r) =
        ([], none) →
      isErrorResponse (h.getObject lib r) "Resource Not Found"
        "No objects defined in this collection" 404) ∧
    (statusCode (h.getObjects lib r) = 200 ∨ statusCode (h.getObjects lib r) = 206 →
      ∃ objects cr,
        h.ObjectService.Objects (takeCollectionID r) (NewRange (r.Header "Range")).1
          (newFilter r) = (objects, cr, none) ∧ 1 ≤ objects.length) ∧
    (statusCode (h.getObject lib r) = 200 ∨ statusCode (h.getObject lib r) = 206 →
      ∃ objects,
        h.ObjectService.Object (takeCollectionID r) (takeObjectID r) (newFilter r) =
          (objects, none) ∧ 1 ≤ objects.length) := by
  refine ⟨?_, ?_, ?_, getObjects_success lib h r, getObject_success lib h r⟩
  · intro hparse
    rcases hr : NewRange (r.Header "Range") with ⟨parsed, err⟩
    rw [hr] at hparse
    simp only at hparse
    subst hparse
    constructor
    · intro objects cr e hq
      have hp : h.getObjects lib r = internalServerError e := by
        simp [ObjectsHandler.getObjects, hr, hq]
      rw [hp]
      exact isErrorResponse_errorStatus _ _ _
    · intro cr hq
      have hp : h.getObjects lib r =
          resourceNotFound "No objects defined in this collection" := by
        simp [ObjectsHandler.getObjects, hr, hq]
      rw [hp]
      exact isErrorResponse_errorStatus _ _ _
  · intro objects e hq
    have hp : h.getObject lib r = internalServerError e := by
      simp [ObjectsHandler.getObject, hq]
    rw [hp]
    exact isErrorResponse_errorStatus _ _ _
  · intro hq
    have hp : h.getObject lib r =
        resourceNotFound "No objects defined in this collection" := by
      simp [ObjectsHandler.getObject, hq]
    rw [hp]
    exact isErrorResponse_errorStatus _ _ _

/-- Witness for C25: the failing and the empty object services of the handler tests, with
the valid header `items 0-0` and without a header. -/
theorem C25_service_failures_witness :
    isErrorResponse (testHandlerObjectsFail.getObjects testLib (testGet "items 0-0"))
        "Internal Server Error" "Collection failure" 500 ∧
      isErrorResponse (testHandlerNoObjects.getObjects testLib (testGet ""))
        "Resource Not Found" "No objects defined in this collection" 404 ∧
      isErrorResponse (testHandlerObjectsFail.getObject testLib (testGet ""))
        "Internal Server Error" "Object failure" 500 ∧
      isErrorResponse (testHandlerNoObjects.getObject testLib (testGet ""))
        "Resource Not Found" "No objects defined in this collection" 404 :=
  ⟨((C25_service_failures testLib testHandlerObjectsFail (testGet "items 0-0")).1
      (by decide)).1 [] { First := 0, Last := 0, Total := 0 } "Collection failure" (by decide),
   ((C25_service_failures testLib testHandlerNoObjects (testGet "")).1 (by decide)).2
      Range.sentinel (by decide),
   (C25_service_failures testLib testHandlerObjectsFail (testGet "")).2.1 []
      "Object failure" rfl,
   (C25_service_failures testLib testHandlerNoObjects (testGet "")).2.2.1 rfl⟩

/-! ## `splitAcceptHeader` and `WithAcceptType` -/

/-- The parts of a split: the text before the first separator, then the split of what follows
that separator, if there is one. -/
theorem splitSep_eq (sep : Char) (cs : List Char) :
    splitSep sep cs =
      cs.takeWhile (fun c => c != sep) ::
        (match cs.dropWhile (fun c => c != sep) with
         | [] => []
         | _ :: tl => splitSep sep tl) := by
  induction cs with
  | nil => rfl
  | cons c rest ih =>
    by_cases hc : c = sep
    · subst hc
      simp [splitSep, List.takeWhile, List.dropWhile]
    · have hb : (c != sep) = true := by simp [hc]
      rw [List.takeWhile_cons, List.dropWhile_cons, hb]
      simp only [if_true]
      have hs : splitSep sep (c :: rest) =
          (match splitSep sep rest with
           | [] => [[c]]
           | p :: ps => (c :: p) :: ps) := by
        simp [splitSep, hc]
      rw [hs, ih]

theorem dropWhile_nil_iff (sep : Char) (cs : List Char) :
    cs.dropWhile (fun c => c != sep) = [] ↔ sep ∉ cs := by
  induction cs with
  | nil => simp
  | cons c rest ih =>
    by_cases hc : c = sep
    · subst hc
      simp [List.dropWhile]
    · have hb : (c != sep) = true := by simp [hc]
      rw [List.dropWhile_cons, hb]
      simp only [if_true, ih, List.mem_cons, not_or]
      constructor
      · intro h
        exact ⟨fun heq => hc heq.symm, h⟩
      · intro h
        exact h.2

theorem takeWhile_all (sep : Char) (cs : List Char) (h : sep ∉ cs) :
    cs.takeWhile (fun c => c != sep) = cs := by
  induction cs with
  | nil => rfl
  | cons c rest ih =>
    have hc : c ≠ sep := fun heq => h (by simp [heq])
    have hb : (c != sep) = true := by simp [hc]
    rw [List.takeWhile_cons, hb]
    simp only [if_true]
    rw [ih (fun hmem => h (by simp [hmem]))]

theorem splitAcceptHeader_spec (h : String) :
    splitAcceptHeader h = some (beforeSemicolon h, afterSemicolon h) := by
  unfold splitAcceptHeader
  simp only []
  rw [splitSep_eq ';' h.data]
  cases hd : h.data.dropWhile (fun c => c != ';') with
  | nil =>
    simp [beforeSemicolon, afterSemicolon, hd]
  | cons c tl =>
    simp only [List.getElem?_cons_zero]
    rw [splitSep_eq ';' tl]
    simp [beforeSemicolon, afterSemicolon, hd]

theorem takeWhile_sep (sep : Char) (pre tl : List Char) (h : sep ∉ pre) :
    (pre ++ sep :: tl).takeWhile (fun c => c != sep) = pre ∧
      (pre ++ sep :: tl).dropWhile (fun c => c != sep) = sep :: tl := by
  induction pre with
  | nil => simp
  | cons c cs ih =>
    have hc : c ≠ sep := fun heq => h (by simp [heq])
    have ih2 := ih (fun hmem => h (by simp [hmem]))
    have hb : (c != sep) = true := by simp [hc]
    rw [List.cons_append, List.takeWhile_cons, List.dropWhile_cons, hb]
    simp only [if_true, ih2.1, ih2.2, and_self]

/-- Claim C30: for every header text, the empty one included, `splitAcceptHeader` does not
panic (the split has at least one part, and the second index is read only when there are
two); its first value is the text before the first `;` (all of the text when there is none)
and its second value is the text between the first and the second `;`, or empty when the
text has no `;`. -/
theorem C30_split_accept_header (h : String) :
    0 < (splitSep ';' h.data).length ∧
      splitAcceptHeader h = some (beforeSemicolon h, afterSemicolon h) ∧
      (';' ∉ h.data → beforeSemicolon h = h ∧ afterSemicolon h = "") ∧
      (∀ a rest : List Char, ';' ∉ a → h.data = a ++ ';' :: rest →
        beforeSemicolon h = String.mk a ∧
        afterSemicolon h = String.mk (rest.takeWhile (fun c => c != ';'))) ∧
      (∀ a b rest : List Char, ';' ∉ a → ';' ∉ b → h.data = a ++ ';' :: (b ++ ';' :: rest) →
        afterSemicolon h = String.mk b) := by
  refine ⟨?_, splitAcceptHeader_spec h, ?_, ?_, ?_⟩
  · rw [splitSep_eq]
    simp
  · intro hno
    constructor
    · simp [beforeSemicolon, takeWhile_all ';' h.data hno]
    · simp [afterSemicolon, (dropWhile_nil_iff ';' h.data).mpr hno]
  · intro a rest ha hdata
    obtain ⟨h1, h2⟩ := takeWhile_sep ';' a rest ha
    simp [beforeSemicolon, afterSemicolon, hdata, h1, h2]
  · intro a b rest ha hb hdata
    obtain ⟨_, h2⟩ := takeWhile_sep ';' a (b ++ ';' :: rest) ha
    obtain ⟨h3, _⟩ := takeWhile_sep ';' b rest hb
    simp [afterSemicolon, hdata, h2, h3]

/-- Witness for C30: the empty header, and a media type with a version parameter. -/
theorem C30_split_accept_header_witness :
    splitAcceptHeader "" = some ("", "") ∧
      splitAcceptHeader "application/vnd.oasis.stix+json; version=2.0" =
        some ("application/vnd.oasis.stix+json", " version=2.0") ∧
      beforeSemicolon "" = "" ∧ afterSemicolon "" = "" :=
  ⟨by decide, by decide, (C30_split_accept_header "").2.2.1 (by decide)⟩

/-- Claim C27: the handler decorated by `WithAcceptType` runs the wrapped handler (its
effects are exactly those of the wrapped handler) when the part of the `Accept` header
before its first `;` equals `typeToCheck`; otherwise its effects are the 415 Unsupported
Media Type error whatever the wrapped handler is, so the wrapped handler is not run. For a
wrapped handler whose effects differ from that error response this is an equivalence. -/
theorem C27_with_accept_type (h : Request → List Event) (typeToCheck : String)
    (r : Request) :
    (beforeSemicolon (r.Header "Accept") = typeToCheck →
        WithAcceptType h typeToCheck r = some (h r)) ∧
      (beforeSemicolon (r.Header "Accept") ≠ typeToCheck →
        WithAcceptType h typeToCheck r = some (unsupportedMediaType
          ("Invalid 'Accept' Header: " ++ beforeSemicolon (r.Header "Accept"))) ∧
        (∀ h2 : Request → List Event,
          WithAcceptType h2 typeToCheck r = WithAcceptType h typeToCheck r) ∧
        isErrorResponse (unsupportedMediaType
          ("Invalid 'Accept' Header: " ++ beforeSemicolon (r.Header "Accept")))
          "Unsupported Media Type"
          ("Invalid 'Accept' Header: " ++ beforeSemicolon (r.Header "Accept")) 415) ∧
      (h r ≠ unsupportedMediaType
          ("Invalid 'Accept' Header: " ++ beforeSemicolon (r.Header "Accept")) →
        (WithAcceptType h typeToCheck r = some (h r) ↔
          beforeSemicolon (r.Header "Accept") = typeToCheck)) := by
  have hmatch : beforeSemicolon (r.Header "Accept") = typeToCheck →
      WithAcceptType h typeToCheck r = some (h r) := by
    intro heq
    simp [WithAcceptType, splitAcceptHeader_spec, heq]
  have hmismatch : ∀ g : Request → List Event,
      beforeSemicolon (r.Header "Accept") ≠ typeToCheck →
      WithAcceptType g typeToCheck r = some (unsupportedMediaType
        ("Invalid 'Accept' Header: " ++ beforeSemicolon (r.Header "Accept"))) := by
    intro g hne
    simp [WithAcceptType, splitAcceptHeader_spec, hne]
  refine ⟨hmatch, ?_, ?_⟩
  · intro hne
    refine ⟨hmismatch h hne, ?_, isErrorResponse_errorStatus _ _ _⟩
    intro h2
    rw [hmismatch h hne, hmismatch h2 hne]
  · intro hdiff
    constructor
    · intro hrun
      by_contra hne
      rw [hmismatch h hne] at hrun
      exact hdiff (Option.some.inj hrun).symm
    · exact hmatch

/-- Witness for C27: the list handler decorated for the STIX media type, called with an
`Accept` header that carries a version parameter, and with another media type. -/
theorem C27_with_accept_type_witness :
    WithAcceptType (testHandler.getObjects testLib) StixContentType
        (testGetAccept "application/vnd.oasis.stix+json; version=2.0") =
        some (testHandler.getObjects testLib
          (testGetAccept "application/vnd.oasis.stix+json; version=2.0")) ∧
      WithAcceptType (testHandler.getObjects testLib) StixContentType
        (testGetAccept "application/json") =
        some (unsupportedMediaType ("Invalid 'Accept' Header: " ++
          beforeSemicolon ((testGetAccept "application/json").Header "Accept"))) :=
  ⟨(C27_with_accept_type (testHandler.getObjects testLib) StixContentType
      (testGetAccept "application/vnd.oasis.stix+json; version=2.0")).1 (by decide),
   ((C27_with_accept_type (testHandler.getObjects testLib) StixContentType
      (testGetAccept "application/json")).2.1 (by decide)).1⟩

/-! ## `CollectionService.CreateCollection` and `UpdateCollection` -/

/-- Claim C29: when `c.Validate()` fails, `CreateCollection` and `UpdateCollection` return
that error and hand no statement to the data store; a statement is written only when
validation succeeds, and then exactly one, whose outcome is the result. A collection with an
empty ID or an empty title fails validation. -/
theorem C29_collection_write_gate (s : Sqlite.CollectionService) (c : Collection) :
    (∀ e, c.Validate = some e →
        s.CreateCollection c = (some e, []) ∧ s.UpdateCollection c = (some e, [])) ∧
      (c.Validate = none →
        s.CreateCollection c = s.createCollection c ∧
        s.UpdateCollection c = s.updateCollection c ∧
        (s.CreateCollection c).2.length = 1 ∧ (s.UpdateCollection c).2.length = 1) ∧
      ((s.CreateCollection c).2 ≠ [] → c.Validate = none) ∧
      ((s.UpdateCollection c).2 ≠ [] → c.Validate = none) ∧
      (c.ID = "" ∨ c.Title = "" → c.Validate ≠ none) := by
  refine ⟨?_, ?_, ?_, ?_, ?_⟩
  · intro e he
    simp [Sqlite.CollectionService.CreateCollection, Sqlite.CollectionService.UpdateCollection,
      he]
  · intro hok
    simp [Sqlite.CollectionService.CreateCollection, Sqlite.CollectionService.UpdateCollection,
      Sqlite.CollectionService.createCollection, Sqlite.CollectionService.updateCollection,
      hok]
  · intro hw
    cases hv : c.Validate with
    | none => rfl
    | some e => simp [Sqlite.CollectionService.CreateCollection, hv] at hw
  · intro hw
    cases hv : c.Validate with
    | none => rfl
    | some e => simp [Sqlite.CollectionService.UpdateCollection, hv] at hw
  · intro hbad
    unfold Collection.Validate
    rcases hbad with hid | htitle
    · simp [hid]
    · by_cases hid : c.ID = ""
      · simp [hid]
      · simp [hid, htitle]

/-- Witness for C29: the collections of `TestCollectionValidate` without a title and without
an ID are refused with no write, and the test collection is written with one statement. -/
theorem C29_collection_write_gate_witness :
    testCollectionService.CreateCollection { testCollection with Title := "" } =
        (some "Invalid title", []) ∧
      testCollectionService.UpdateCollection { testCollection with Title := "" } =
        (some "Invalid title", []) ∧
      testCollectionService.CreateCollection { testCollection with ID := "" } =
        (some "Invalid id", []) ∧
      (testCollectionService.CreateCollection testCollection).2.length = 1 ∧
      (testCollectionService.UpdateCollection testCollection).2.length = 1 :=
  ⟨((C29_collection_write_gate testCollectionService { testCollection with Title := "" }).1
      "Invalid title" (by decide)).1,
   ((C29_collection_write_gate testCollectionService { testCollection with Title := "" }).1
      "Invalid title" (by decide)).2,
   ((C29_collection_write_gate testCollectionService { testCollection with ID := "" }).1
      "Invalid id" (by decide)).1,
   ((C29_collection_write_gate testCollectionService testCollection).2.1 (by decide)).2.2.1,
   ((C29_collection_write_gate testCollectionService testCollection).2.1 (by decide)).2.2.2⟩

end Cabby
